import Mathlib

/-!
ModemManager (smooth/core/network): AT-command SMS workflow and session lifecycle

A shallow embedding of `src/lib/smooth/core/network/ModemManager.cpp` and the
headers it is declared in.  The modem driver (esp_modem, n58), the event bus
and the transport are external to the sources; every call into them is
recorded in an effect log, and what they answer is read from an environment
`Env`, over which the theorems quantify.
-/

namespace Smooth

/-! ## Strings and the C library -/

/-- Contents of a `std::string` or of a C string (the characters before the
terminating NUL). -/
abbrev Str := List Char

/-- The NUL character. -/
def NUL : Char := Char.ofNat 0

/-- The carriage return that ends every command. -/
def CR : Char := Char.ofNat 13

/-- The message terminator CTRL+Z, written `\x1A` in the source. -/
def CTRLZ : Char := Char.ofNat 26

/-- `std::string::c_str()` read as a C string: the characters up to the first
NUL of the contents. -/
def c_str (s : Str) : Str := s.takeWhile (fun c => c != NUL)

/-- `strncmp(s1, s2, n) == 0`: the first `n` characters agree, the comparison
ending early where both strings end. -/
def strncmp_eq : Str → Str → Nat → Bool
  | _, _, 0 => true
  | [], [], _ + 1 => true
  | c :: cs, d :: ds, n + 1 => c == d && strncmp_eq cs ds n
  | _, _, _ + 1 => false

/-- `strncmp(line, lit, strlen(lit)) == 0`, the test the handlers apply to a
response name. -/
def beginsWith (line lit : Str) : Bool := strncmp_eq line lit lit.length

/-- `strstr(hay, needle) != NULL`: `needle` occurs somewhere in `hay`. -/
def strstr : Str → Str → Bool
  | [], needle => needle.isEmpty
  | c :: cs, needle => beginsWith (c :: cs) needle || strstr cs needle

/-- `snprintf(buf, size, ...)` for `size > 0`, given the fully formatted text:
the buffer receives the first `size - 1` characters (then a NUL), and the
call returns the length of the fully formatted text. -/
def snprintf (size : Nat) (formatted : Str) : Str × Int :=
  (formatted.take (size - 1), (formatted.length : Int))

/-- The conversion `%d` applied to an `unsigned int` argument on a 32-bit
target: the bits are read as a signed `int` and written in decimal. -/
def fmt_d (index : Nat) : Str :=
  let v := index % 2 ^ 32
  if v < 2 ^ 31 then Nat.toDigits 10 v else '-' :: Nat.toDigits 10 (2 ^ 32 - v)

/-! ## Values of esp_err.h and esp_modem -/

/-- Modelled from the spec: `esp_err.h` is not among the sources; the claims
give `ESP_OK = 0`. -/
def ESP_OK : Int := 0

/-- Modelled from the spec: `esp_err.h` is not among the sources; the claims
give `ESP_FAIL = -1`. -/
def ESP_FAIL : Int := -1

/-- The implicit conversion of an `esp_err_t` to the `bool` a method returns. -/
def boolOfErr (e : Int) : Bool := decide (e ≠ 0)

/-- The integral promotion of a `bool` in a comparison with an `esp_err_t`. -/
def intOfBool (b : Bool) : Int := if b then 1 else 0

/-- Modelled from the spec: `modem_state_t` of esp_modem, the state a command
exchange leaves in `dce->state`. -/
inductive ModemState
  | MODEM_STATE_IDLE
  | MODEM_STATE_PROCESSING
  | MODEM_STATE_SUCCESS
  | MODEM_STATE_FAIL
  deriving DecidableEq, Repr

open ModemState

/-- Modelled from the spec: `esp_modem_event_t`, the event ids delivered to the
registered event handler; `other` stands for any id outside the enumeration. -/
inductive ModemEvent
  | MODEM_EVENT_PPP_START
  | MODEM_EVENT_PPP_CONNECT
  | MODEM_EVENT_PPP_DISCONNECT
  | MODEM_EVENT_PPP_STOP
  | MODEM_EVENT_UNKNOWN
  | other (id : Int)
  deriving DecidableEq, Repr

def MODEM_SMS_MAX_LENGTH : Nat := 128
def MODEM_COMMAND_TIMEOUT_SMS_MS : Nat := 5000
def MODEM_COMMAND_TIMEOUT_COMMON : Nat := 300
def MODEM_PROMPT_TIMEOUT_MS : Nat := 10

/-! ## Events -/

/-- Modelled from the spec: `NetworkEvent` of NetworkStatus.h, of which the
managers use two kinds. -/
inductive NetworkEvent
  | GOT_IP
  | DISCONNECTED
  deriving DecidableEq, Repr

/-- Modelled from the spec: `NetworkStatus` of NetworkStatus.h, built from an
event kind and the ip_changed flag. -/
structure NetworkStatus where
  event : NetworkEvent
  ip_changed : Bool
  deriving DecidableEq, Repr

/-- The value object of ModemMessage.h: the raw line. -/
structure ModemMessage where
  buffer : Str
  deriving DecidableEq, Repr

def ModemMessage.get_buffer (m : ModemMessage) : Str := m.buffer

/-! ## Line handlers -/

/-- The functions `dce->handle_line` points to: the two static handlers of
ModemManager, or one installed by the vendor driver. -/
inductive Handler
  | vendor
  | defaultHandle
  | handleCmgs
  deriving DecidableEq, Repr

/-- The answer of a transport exchange `send_cmd`: its return value and the
state the exchange leaves in `dce->state`. -/
structure CmdReply where
  ret : Int
  state : ModemState
  deriving DecidableEq, Repr

/-- Identity fields of the `modem_dce_t` the vendor driver creates. -/
structure DceInfo where
  name : Str
  oper : Str
  imei : Str
  imsi : Str
  ccid : Str
  deriving DecidableEq, Repr

/-- Everything outside the sources: the constants of esp_modem_dce.h and the
answers of the driver and the device.  An answer is indexed by the number of
effects that precede the call. -/
structure Env where
  MODEM_RESULT_CODE_SUCCESS : Str
  MODEM_RESULT_CODE_ERROR : Str
  MODEM_COMMAND_TIMEOUT_DEFAULT : Nat
  esp_modem_process_command_done : ModemState → Int
  send_cmd : Nat → CmdReply
  send_wait : Nat → Int
  esp_modem_dte_init : Nat → Bool
  n58_init : Nat → Option DceInfo
  driver : Nat → Int

/-- What one call of a line handler does: the value it returns, the state it
resolved the command with (when it called `esp_modem_process_command_done`),
and the ModemMessage events it published. -/
structure HandlerResult where
  err : Int
  done : Option ModemState
  published : List ModemMessage
  deriving DecidableEq, Repr

/-- `ModemManager::defaultHandle`. -/
def defaultHandle (env : Env) (line : Str) : HandlerResult :=
  if strstr line env.MODEM_RESULT_CODE_SUCCESS then
    { err := env.esp_modem_process_command_done MODEM_STATE_SUCCESS,
      done := some MODEM_STATE_SUCCESS, published := [] }
  else if strstr line env.MODEM_RESULT_CODE_ERROR then
    { err := env.esp_modem_process_command_done MODEM_STATE_FAIL,
      done := some MODEM_STATE_FAIL, published := [] }
  else
    { err := ESP_FAIL, done := none, published := [] }

/-- `ModemManager::handleCmgs`. -/
def handleCmgs (env : Env) (line : Str) : HandlerResult :=
  if strstr line env.MODEM_RESULT_CODE_SUCCESS then
    { err := env.esp_modem_process_command_done MODEM_STATE_SUCCESS,
      done := some MODEM_STATE_SUCCESS, published := [] }
  else if strstr line env.MODEM_RESULT_CODE_ERROR then
    { err := env.esp_modem_process_command_done MODEM_STATE_FAIL,
      done := some MODEM_STATE_FAIL, published := [] }
  else if beginsWith line "+CMGS".toList then
    { err := ESP_OK, done := none, published := [] }
  else if beginsWith line "+CMGR".toList then
    { err := ESP_OK, done := none, published := [ModemMessage.mk line] }
  else if beginsWith line "+CMGL".toList then
    { err := ESP_OK, done := none, published := [ModemMessage.mk line] }
  else if beginsWith line "+NETMSG".toList then
    { err := ESP_OK, done := none, published := [ModemMessage.mk line] }
  else
    { err := ESP_FAIL, done := none, published := [] }

/-- The handler function a value of `dce->handle_line` stands for; the vendor
driver's handlers are outside the sources, so there is no result for them. -/
def Handler.run (env : Env) : Handler → Str → Option HandlerResult
  | Handler.vendor, _ => none
  | Handler.defaultHandle, line => some (Smooth.defaultHandle env line)
  | Handler.handleCmgs, line => some (Smooth.handleCmgs env line)

/-- What a handler has done after a sequence of lines was dispatched to it:
the ModemMessage events published, in order, and for every call of
`esp_modem_process_command_done` the position of the line that caused it
and the state it resolved the command with. -/
structure FeedResult where
  published : List ModemMessage
  resolved : List (Nat × ModemState)
  deriving DecidableEq, Repr

/-- Dispatch of received lines, one after the other, to a line handler; `pos`
is the position of the first line. -/
def feedFrom (h : Str → HandlerResult) : Nat → List Str → FeedResult
  | _, [] => { published := [], resolved := [] }
  | pos, line :: rest =>
    let r := h line
    let t := feedFrom h (pos + 1) rest
    { published := r.published ++ t.published,
      resolved := (match r.done with
        | some st => [(pos, st)]
        | none => []) ++ t.resolved }

/-- Dispatch of a whole response, its first line at position 0. -/
def feed (h : Str → HandlerResult) (lines : List Str) : FeedResult := feedFrom h 0 lines

/-! ## The manager -/

/-- Calls into the driver, the network stack and the RTOS. -/
inductive DriverCall
  | esp_netif_init
  | xEventGroupCreate
  | esp_modem_dte_init
  | esp_modem_add_event_handler
  | n58_init
  | set_flow_ctrl (flow_control : Nat)
  | store_profile
  | get_signal_quality
  | esp_modem_setup_ppp
  | esp_modem_exit_ppp
  | power_down
  | dce_deinit
  | dte_deinit
  deriving DecidableEq, Repr

/-- One observable action of the manager; transport exchanges carry the
answer they received. -/
inductive Effect
  | send_cmd (command : Str) (timeout : Nat) (handler : Handler) (reply : CmdReply)
  | send_wait (command : Str) (length : Nat) (pattern : Str) (timeout : Nat) (ret : Int)
  | call (c : DriverCall)
  | publish (status : NetworkStatus)
  deriving DecidableEq, Repr

/-- The object state of `ModemManager`.  `dce` holds the identity fields of
the live `modem_dce_t` (none while no such object is live); `handle_line` and
`state` are `dce->handle_line` and `dce->state`; `dte` tells whether init has
obtained a transport handle; `log` is the history of effects. -/
structure ModemManager where
  flow_control : Nat
  dte : Bool
  dce : Option DceInfo
  handle_line : Handler
  state : ModemState
  imei : Str
  imsi : Str
  ccid : Str
  is_set_format : Bool
  log : List Effect
  deriving DecidableEq, Repr

/-- The constructor `ModemManager::ModemManager()` with the member defaults of
the header. -/
def ModemManager.new : ModemManager :=
  { flow_control := 0, dte := false, dce := none, handle_line := Handler.vendor,
    state := MODEM_STATE_IDLE, imei := [], imsi := [], ccid := [],
    is_set_format := false, log := [] }

def ModemManager.getImei (m : ModemManager) : Str := m.imei
def ModemManager.getImsi (m : ModemManager) : Str := m.imsi
def ModemManager.getCcid (m : ModemManager) : Str := m.ccid

/-- How a method ends: it returns `val` and leaves the manager in state `m`,
or execution stops there (a failed `ESP_ERROR_CHECK`, a `std::out_of_range`,
or the use of `dce` while no such object is live). -/
inductive Res (α : Type)
  | ok (val : α) (m : ModemManager)
  | abort (m : ModemManager)

/-- The manager state a method leaves behind. -/
def Res.mgr {α : Type} : Res α → ModemManager
  | Res.ok _ m => m
  | Res.abort m => m

/-- The value a method returned, if it returned. -/
def Res.val? {α : Type} : Res α → Option α
  | Res.ok v _ => some v
  | Res.abort _ => none

/-- `core::ipc::Publisher<NetworkStatus>::publish(status)`. -/
def publish (m : ModemManager) (status : NetworkStatus) : ModemManager :=
  { m with log := m.log ++ [Effect.publish status] }

/-- `ModemManager::publish_status`. -/
def publish_status (m : ModemManager) (connected ip_changed : Bool) : ModemManager :=
  publish m (NetworkStatus.mk
    (if connected then NetworkEvent.GOT_IP else NetworkEvent.DISCONNECTED) ip_changed)

/-- A call into the driver: it is logged and its `esp_err_t` is read from the
environment. -/
def driverCall (env : Env) (m : ModemManager) (c : DriverCall) : Int × ModemManager :=
  (env.driver m.log.length, { m with log := m.log ++ [Effect.call c] })

/-- `ESP_ERROR_CHECK(call)` followed by the rest of the method. -/
def checked {α : Type} (env : Env) (m : ModemManager) (c : DriverCall)
    (rest : ModemManager → Res α) : Res α :=
  let r := driverCall env m c
  if r.1 = ESP_OK then rest r.2 else Res.abort r.2

/-- `dte->send_cmd(dte, command, timeout)`: the exchange is logged together
with the handler installed at that moment, and leaves its state in
`dce->state`. -/
def send_cmd (env : Env) (m : ModemManager) (command : Str) (timeout : Nat) :
    Int × ModemManager :=
  let r := env.send_cmd m.log.length
  (r.ret, { m with state := r.state,
                   log := m.log ++ [Effect.send_cmd command timeout m.handle_line r] })

/-- `dte->send_wait(dte, data, length, pattern, timeout)`. -/
def send_wait (env : Env) (m : ModemManager) (data : Str) (length : Nat) (pattern : Str)
    (timeout : Nat) : Int × ModemManager :=
  let r := env.send_wait m.log.length
  (r, { m with log := m.log ++ [Effect.send_wait data length pattern timeout r] })

/-- `ModemManager::setConfig`, of which the model keeps the flow control. -/
def setConfig (m : ModemManager) (flow_control : Nat) : ModemManager :=
  { m with flow_control := flow_control }

/-- `ModemManager::init`. -/
def init (env : Env) (m : ModemManager) : Res Unit :=
  let m := (driverCall env m DriverCall.esp_netif_init).2
  let m := (driverCall env m DriverCall.xEventGroupCreate).2
  let m := { m with dte := env.esp_modem_dte_init m.log.length,
                    log := m.log ++ [Effect.call DriverCall.esp_modem_dte_init] }
  checked env m DriverCall.esp_modem_add_event_handler (fun m => Res.ok () m)

/-- `ModemManager::connect`. -/
def connect (env : Env) (m : ModemManager) : Res Bool :=
  let created := env.n58_init m.log.length
  let m := { m with dce := created, handle_line := Handler.vendor, state := MODEM_STATE_IDLE,
                    log := m.log ++ [Effect.call DriverCall.n58_init] }
  match created with
  | none => Res.ok false m
  | some dce =>
    checked env m (DriverCall.set_flow_ctrl m.flow_control) (fun m =>
    checked env m DriverCall.store_profile (fun m =>
      let m := { m with imei := dce.imei }
      let m := { m with imsi := dce.imsi }
      if dce.ccid.length < 2 then Res.abort m else
      let m := { m with ccid := (dce.ccid.drop 2).take 16 }
      checked env m DriverCall.get_signal_quality (fun m =>
        let result := driverCall env m DriverCall.esp_modem_setup_ppp
        Res.ok (decide (result.1 = ESP_OK)) result.2)))

/-- `ModemManager::disconnect` followed by the rest of the caller. -/
def disconnect {α : Type} (env : Env) (m : ModemManager) (rest : ModemManager → Res α) :
    Res α :=
  checked env m DriverCall.esp_modem_exit_ppp rest

/-- `ModemManager::onStop`. -/
def onStop (env : Env) (m : ModemManager) : Res Unit :=
  disconnect env m (fun m =>
    match m.dce with
    | none => Res.abort m
    | some _ =>
      checked env m DriverCall.power_down (fun m =>
      checked env m DriverCall.dce_deinit (fun m =>
        let m := { m with dce := none }
        checked env m DriverCall.dte_deinit (fun m =>
          Res.ok () { m with dte := false }))))

/-- `ModemManager::stop`. -/
def stop (env : Env) (m : ModemManager) : Res Unit := onStop env m

/-! ## SMS operations -/

/-- `ModemManager::setFormatSms`.  The returned `bool` is the conversion of
the `esp_err_t` named in the return statement. -/
def setFormatSms (env : Env) (m : ModemManager) : Bool × ModemManager :=
  let r := send_cmd env m "AT+CMGF=1\r".toList env.MODEM_COMMAND_TIMEOUT_DEFAULT
  if r.1 ≠ ESP_OK then (boolOfErr ESP_FAIL, r.2)
  else if r.2.state ≠ MODEM_STATE_SUCCESS then (boolOfErr ESP_FAIL, r.2)
  else
    let m := { r.2 with handle_line := Handler.defaultHandle }
    let r := send_cmd env m "AT+CSCS=\"GSM\"\r".toList env.MODEM_COMMAND_TIMEOUT_DEFAULT
    if r.1 ≠ ESP_OK then (boolOfErr ESP_FAIL, r.2)
    else if r.2.state ≠ MODEM_STATE_SUCCESS then (boolOfErr ESP_FAIL, r.2)
    else (boolOfErr ESP_OK, r.2)

/-- The guard at the head of sendSms, listSms and readSms:
`if (!is_set_format) { if (setFormatSms() == ESP_OK) is_set_format = true; else return ESP_FAIL; }`.
The first component tells whether the method goes on; when it is false the
method returns `ESP_FAIL`. -/
def formatGuard (env : Env) (m : ModemManager) : Bool × ModemManager :=
  if m.is_set_format = false then
    let r := setFormatSms env m
    if intOfBool r.1 = ESP_OK then (true, { r.2 with is_set_format := true })
    else (false, r.2)
  else (true, m)

/-- The tail common to the SMS methods: the command is sent with the given
timeout, and the method returns `ESP_FAIL` unless `send_cmd` returned
`ESP_OK` and left `MODEM_STATE_SUCCESS`, in which case it returns `ESP_OK`. -/
def exchange (env : Env) (m : ModemManager) (command : Str) (timeout : Nat) : Res Bool :=
  let r := send_cmd env m command timeout
  if r.1 ≠ ESP_OK then Res.ok (boolOfErr ESP_FAIL) r.2
  else if r.2.state ≠ MODEM_STATE_SUCCESS then Res.ok (boolOfErr ESP_FAIL) r.2
  else Res.ok (boolOfErr ESP_OK) r.2

/-- The text `"AT+CMGS=\"%s\"\r"` formats for a phone number. -/
def cmgsText (phone : Str) : Str := "AT+CMGS=\"".toList ++ c_str phone ++ "\"\r".toList

/-- The text `"%s\x1A"` formats for a message body. -/
def bodyText (text : Str) : Str := c_str text ++ [CTRLZ]

/-- `ModemManager::sendSms`. -/
def sendSms (env : Env) (m : ModemManager) (phone text : Str) : Res Bool :=
  match m.dce with
  | none => Res.abort m
  | some _ =>
    let m := { m with handle_line := Handler.defaultHandle }
    let g := formatGuard env m
    if g.1 = false then Res.ok (boolOfErr ESP_FAIL) g.2
    else
      let m := g.2
      let command := snprintf MODEM_SMS_MAX_LENGTH (cmgsText phone)
      let m := (send_wait env m command.1 command.2.toNat "\r\n> ".toList
        MODEM_PROMPT_TIMEOUT_MS).2
      let command := snprintf MODEM_SMS_MAX_LENGTH (bodyText text)
      let m := { m with handle_line := Handler.handleCmgs }
      exchange env m command.1 MODEM_COMMAND_TIMEOUT_SMS_MS

/-- `ModemManager::listSms`. -/
def listSms (env : Env) (m : ModemManager) : Res Bool :=
  match m.dce with
  | none => Res.abort m
  | some _ =>
    let m := { m with handle_line := Handler.defaultHandle }
    let g := formatGuard env m
    if g.1 = false then Res.ok (boolOfErr ESP_FAIL) g.2
    else
      let m := { g.2 with handle_line := Handler.handleCmgs }
      exchange env m "AT+CMGL=\"ALL\"\r".toList MODEM_COMMAND_TIMEOUT_COMMON

/-- `ModemManager::readSms`. -/
def readSms (env : Env) (m : ModemManager) (index : Nat) : Res Bool :=
  match m.dce with
  | none => Res.abort m
  | some _ =>
    let m := { m with handle_line := Handler.defaultHandle }
    let g := formatGuard env m
    if g.1 = false then Res.ok (boolOfErr ESP_FAIL) g.2
    else
      let command := snprintf 9 ("AT+CMGR=".toList ++ fmt_d index ++ [CR])
      let m := { g.2 with handle_line := Handler.handleCmgs }
      exchange env m command.1 MODEM_COMMAND_TIMEOUT_COMMON

/-- `ModemManager::deleteSms`. -/
def deleteSms (env : Env) (m : ModemManager) (index : Nat) : Res Bool :=
  match m.dce with
  | none => Res.abort m
  | some _ =>
    let m := { m with handle_line := Handler.defaultHandle }
    let command := snprintf 9 ("AT+CMGD=".toList ++ fmt_d index ++ [CR])
    let m := { m with handle_line := Handler.handleCmgs }
    exchange env m command.1 MODEM_COMMAND_TIMEOUT_SMS_MS

/-- `ModemManager::deleteAllSms`. -/
def deleteAllSms (env : Env) (m : ModemManager) : Res Bool :=
  match m.dce with
  | none => Res.abort m
  | some _ =>
    let m := { m with handle_line := Handler.defaultHandle }
    let m := { m with handle_line := Handler.handleCmgs }
    exchange env m "AT+CMGD=1,3\r".toList MODEM_COMMAND_TIMEOUT_COMMON

/-- `ModemManager::queryNetRegistrationInfo`. -/
def queryNetRegistrationInfo (env : Env) (m : ModemManager) : Res Bool :=
  match m.dce with
  | none => Res.abort m
  | some _ =>
    let m := { m with handle_line := Handler.defaultHandle }
    let m := { m with handle_line := Handler.handleCmgs }
    exchange env m "AT+NETMSG\r".toList MODEM_COMMAND_TIMEOUT_COMMON

/-- `ModemManager::modemEventHandlerStatic`, for the manager registered as
`event_handler_arg`. -/
def modemEventHandlerStatic (env : Env) (modem : ModemManager) (event_id : ModemEvent) :
    Res Unit :=
  match event_id with
  | ModemEvent.MODEM_EVENT_PPP_START => Res.ok () modem
  | ModemEvent.MODEM_EVENT_PPP_CONNECT => Res.ok () (publish_status modem true true)
  | ModemEvent.MODEM_EVENT_PPP_DISCONNECT => Res.ok () (publish_status modem false true)
  | ModemEvent.MODEM_EVENT_PPP_STOP => onStop env (publish_status modem false true)
  | ModemEvent.MODEM_EVENT_UNKNOWN => Res.ok () modem
  | ModemEvent.other _ => Res.ok () modem

/-! ## Runs -/

/-- The calls a client or the driver can make on a manager. -/
inductive Op
  | setConfig (flow_control : Nat)
  | init
  | connect
  | stop
  | sendSms (phone text : Str)
  | listSms
  | readSms (index : Nat)
  | deleteSms (index : Nat)
  | deleteAllSms
  | queryNetRegistrationInfo
  | event (event_id : ModemEvent)
  deriving DecidableEq, Repr

/-- The state a method leaves behind when it returns. -/
def Res.returned {α : Type} : Res α → Option ModemManager
  | Res.ok _ m => some m
  | Res.abort _ => none

/-- The state after one call, when the call returns. -/
def step (env : Env) (m : ModemManager) : Op → Option ModemManager
  | Op.setConfig fc => some (setConfig m fc)
  | Op.init => (init env m).returned
  | Op.connect => (connect env m).returned
  | Op.stop => (stop env m).returned
  | Op.sendSms phone text => (sendSms env m phone text).returned
  | Op.listSms => (listSms env m).returned
  | Op.readSms index => (readSms env m index).returned
  | Op.deleteSms index => (deleteSms env m index).returned
  | Op.deleteAllSms => (deleteAllSms env m).returned
  | Op.queryNetRegistrationInfo => (queryNetRegistrationInfo env m).returned
  | Op.event e => (modemEventHandlerStatic env m e).returned

/-- The state after a sequence of calls that all return. -/
def run (env : Env) (m : ModemManager) : List Op → Option ModemManager
  | [] => some m
  | op :: ops => match step env m op with
    | some m1 => run env m1 ops
    | none => none

/-- The NetworkStatus events of a log, in order of publication. -/
def statuses : List Effect → List NetworkStatus
  | [] => []
  | Effect.publish s :: rest => s :: statuses rest
  | _ :: rest => statuses rest

/-- An environment in which every call succeeds and the device is the one
given; the result codes are `OK` and `ERROR`, those of esp_modem. -/
def envOk (dce : DceInfo) : Env :=
  { MODEM_RESULT_CODE_SUCCESS := "OK".toList,
    MODEM_RESULT_CODE_ERROR := "ERROR".toList,
    MODEM_COMMAND_TIMEOUT_DEFAULT := 500,
    esp_modem_process_command_done := fun _ => ESP_OK,
    send_cmd := fun _ => { ret := ESP_OK, state := MODEM_STATE_SUCCESS },
    send_wait := fun _ => ESP_OK,
    esp_modem_dte_init := fun _ => true,
    n58_init := fun _ => some dce,
    driver := fun _ => ESP_OK }

/-- A device with sample identity strings. -/
def sampleDce : DceInfo :=
  { name := "N58".toList, oper := "OP".toList, imei := "860000000000001".toList,
    imsi := "452000000000001".toList, ccid := "8984000000000000001F".toList }

/-- The environment in which every call succeeds, for the sample device. -/
def envSample : Env := envOk sampleDce

/-- The manager after init and a successful connect to the sample device. -/
def connected : ModemManager := (connect envSample (init envSample ModemManager.new).mgr).mgr

/-- The connected manager once a first listSms has established text mode. -/
def textMode : ModemManager := (listSms envSample connected).mgr

/-- An environment like `envSample` in which the prompt is never observed:
every `send_wait` returns `ESP_FAIL`. -/
def envNoPrompt : Env := { envOk sampleDce with send_wait := fun _ => ESP_FAIL }

/-- The manager after init, a successful connect and a first listSms, on the
device that never shows the prompt. -/
def textModeNoPrompt : ModemManager :=
  (listSms envNoPrompt (connect envNoPrompt (init envNoPrompt ModemManager.new).mgr).mgr).mgr

/-- A body of 127 characters. -/
def longBody : Str := List.replicate 127 (Char.ofNat 97)

/-- A read-payload line whose last field holds the letters of the success
token. -/
def cmgrLineWithOk : Str := "+CMGR: \"REC READ\",\"+84123\",\"OK\"".toList

/-- A list-entry line without a result token. -/
def cmglLine : Str := "+CMGL: 1,\"REC READ\",\"+84123\"".toList

/-- A list-entry line whose last field holds the letters of the success
token. -/
def cmglLineWithOk : Str := "+CMGL: 1,\"REC READ\",\"OK\"".toList

/-- The three methods that start with the text-mode guard. -/
inductive TextOp
  | sendSms (phone text : Str)
  | listSms
  | readSms (index : Nat)
  deriving DecidableEq, Repr

/-- The call of one of the guarded methods. -/
def TextOp.call (env : Env) (m : ModemManager) : TextOp → Res Bool
  | TextOp.sendSms phone text => Smooth.sendSms env m phone text
  | TextOp.listSms => Smooth.listSms env m
  | TextOp.readSms index => Smooth.readSms env m index

/-- The guarded method as one of the calls of a run. -/
def TextOp.toOp : TextOp → Op
  | TextOp.sendSms phone text => Op.sendSms phone text
  | TextOp.listSms => Op.listSms
  | TextOp.readSms index => Op.readSms index

/-- The outcome the methods test for after an exchange: `send_cmd` returned
`ESP_OK` and `dce->state` is `MODEM_STATE_SUCCESS`. -/
def CmdReply.succeeded (r : CmdReply) : Bool :=
  decide (r.ret = ESP_OK) && decide (r.state = MODEM_STATE_SUCCESS)

/-- The command that sets text mode. -/
def CMGF : Str := "AT+CMGF=1\r".toList

/-- The command that selects the GSM character set. -/
def CSCS : Str := "AT+CSCS=\"GSM\"\r".toList

/-- The effect is an exchange of one of the two setup commands. -/
def isSetupCommand : Effect → Bool
  | Effect.send_cmd c _ _ _ => decide (c = CMGF) || decide (c = CSCS)
  | _ => false

/-- The effect is an exchange of the given command that succeeded. -/
def isOkExchange (command : Str) : Effect → Bool
  | Effect.send_cmd c _ _ r => decide (c = command) && r.succeeded
  | _ => false

/-- The effects begin with the two setup exchanges, text mode and then
character set, both of which succeeded. -/
def setupSucceeded : List Effect → Bool
  | e1 :: e2 :: _ => isOkExchange CMGF e1 && isOkExchange CSCS e2
  | _ => false

/-- Somewhere in the log the two setup exchanges follow one another and both
succeeded. -/
def setupSucceededBefore : List Effect → Bool
  | [] => false
  | e :: rest => setupSucceeded (e :: rest) || setupSucceededBefore rest

/-- The effects a call added to the log of the state it started in. -/
def effectsOf {α : Type} (m : ModemManager) (res : Res α) : List Effect :=
  res.mgr.log.drop m.log.length

/-- The text-mode exchange of a guard that starts in state `m`. -/
def cmgfExchange (env : Env) (m : ModemManager) : Effect :=
  Effect.send_cmd CMGF env.MODEM_COMMAND_TIMEOUT_DEFAULT Handler.defaultHandle
    (env.send_cmd m.log.length)

/-- The character-set exchange of a guard that starts in state `m`. -/
def cscsExchange (env : Env) (m : ModemManager) : Effect :=
  Effect.send_cmd CSCS env.MODEM_COMMAND_TIMEOUT_DEFAULT Handler.defaultHandle
    (env.send_cmd (m.log.length + 1))

/-- The exchanges a guarded method makes after its guard, from the state `g`
the guard leaves. -/
def ownEffects (env : Env) (g : ModemManager) : TextOp → List Effect
  | TextOp.sendSms phone text =>
    [Effect.send_wait (snprintf MODEM_SMS_MAX_LENGTH (cmgsText phone)).1
        (snprintf MODEM_SMS_MAX_LENGTH (cmgsText phone)).2.toNat "\r\n> ".toList
        MODEM_PROMPT_TIMEOUT_MS (env.send_wait g.log.length),
     Effect.send_cmd (snprintf MODEM_SMS_MAX_LENGTH (bodyText text)).1
        MODEM_COMMAND_TIMEOUT_SMS_MS Handler.handleCmgs (env.send_cmd (g.log.length + 1))]
  | TextOp.listSms =>
    [Effect.send_cmd "AT+CMGL=\"ALL\"\r".toList MODEM_COMMAND_TIMEOUT_COMMON Handler.handleCmgs
        (env.send_cmd g.log.length)]
  | TextOp.readSms index =>
    [Effect.send_cmd (snprintf 9 ("AT+CMGR=".toList ++ fmt_d index ++ [CR])).1
        MODEM_COMMAND_TIMEOUT_COMMON Handler.handleCmgs (env.send_cmd g.log.length)]

/-- The state `m1` comes from `m` by steps that leave the format flag alone
and only add to the log. -/
def Frame (m m1 : ModemManager) : Prop :=
  m1.is_set_format = m.is_set_format ∧ ∃ seg, m1.log = m.log ++ seg

/-- The state after a deleteAllSms that follows the first listSms. -/
def afterDelete : ModemManager := (deleteAllSms envSample textMode).mgr

/-- The driver calls of the teardown in `onStop`, in the order of the source:
leave PPP mode, power the module down, release the dce, release the dte. -/
def teardownCalls : List Effect :=
  [Effect.call DriverCall.esp_modem_exit_ppp, Effect.call DriverCall.power_down,
   Effect.call DriverCall.dce_deinit, Effect.call DriverCall.dte_deinit]

/-- The status both paths of the lifecycle publish for a lost session. -/
def statusDisconnected : NetworkStatus := NetworkStatus.mk NetworkEvent.DISCONNECTED true

/-- The driver calls of `connect`, in the order of the source: handshake,
flow control, profile store, signal quality, PPP setup. -/
def connectCalls (flow_control : Nat) : List Effect :=
  [Effect.call DriverCall.n58_init, Effect.call (DriverCall.set_flow_ctrl flow_control),
   Effect.call DriverCall.store_profile, Effect.call DriverCall.get_signal_quality,
   Effect.call DriverCall.esp_modem_setup_ppp]

/-- The device identity a manager holds: what getImei, getImsi and getCcid
return. -/
def identity (m : ModemManager) : Str × Str × Str := (m.getImei, m.getImsi, m.getCcid)

/-- The identity `connect` copies from a device object: IMEI and IMSI as they
are, and of the CCID the 16 characters from position 2. -/
def identityOf (dce : DceInfo) : Str × Str × Str :=
  (dce.imei, dce.imsi, (dce.ccid.drop 2).take 16)

/-- The manager after init on the sample device, before any connect. -/
def initialized : ModemManager := (init envSample ModemManager.new).mgr

/-- The call is not a connect that returns true from state `m`. -/
def notConnectTrue (env : Env) (m : ModemManager) : Op → Bool
  | Op.connect => decide ((connect env m).val? ≠ some true)
  | _ => true

/-- The call is not a connect whose handshake yields a device object from
state `m`. -/
def notHandshake (env : Env) (m : ModemManager) : Op → Bool
  | Op.connect => decide (env.n58_init m.log.length = none)
  | _ => true

/-- Along the run of the calls from `m`, every call satisfies `p` in the state
it starts from. -/
def alongRun (p : Env → ModemManager → Op → Bool) (env : Env) :
    ModemManager → List Op → Bool
  | _, [] => true
  | m, op :: ops =>
    p env m op && (match step env m op with
      | some m1 => alongRun p env m1 ops
      | none => true)

/-- An environment like `envSample` in which esp_modem_setup_ppp, the ninth
effect of the run init(); connect(), fails. -/
def envPppFails : Env :=
  { envOk sampleDce with driver := fun k => if k = 8 then ESP_FAIL else ESP_OK }

/-- The state after init() and a connect() that returned false because
esp_modem_setup_ppp failed. -/
def afterFailedPpp : ModemManager :=
  (connect envPppFails (init envPppFails ModemManager.new).mgr).mgr

/-- An environment like `envSample` in which the handshake yields no device
object. -/
def envNoDevice : Env := { envOk sampleDce with n58_init := fun _ => none }

/-- The state after setConfig, init() and a connect() whose handshake
failed. -/
def afterNoDevice : ModemManager :=
  (connect envNoDevice (init envNoDevice (setConfig ModemManager.new 1)).mgr).mgr

/-- An error report in whose text the letters of the success token occur. -/
def errorLineWithOk : Str := "+CME ERROR: SIM NOT OK".toList

/-- A line of message text, without token and without response name. -/
def textLine : Str := "see you at nine".toList

/-- `Wifi::publish_status`, a static method; `bus` holds the NetworkStatus
events published so far. -/
def Wifi.publish_status (bus : List NetworkStatus) (connected ip_changed : Bool) :
    List NetworkStatus :=
  bus ++ [NetworkStatus.mk
    (if connected then NetworkEvent.GOT_IP else NetworkEvent.DISCONNECTED) ip_changed]

/-- The six SMS and registration methods that return the conversion of an
`esp_err_t`. -/
inductive SmsOp
  | sendSms (phone text : Str)
  | listSms
  | readSms (index : Nat)
  | deleteSms (index : Nat)
  | deleteAllSms
  | queryNetRegistrationInfo
  deriving DecidableEq, Repr

/-- The call of one of the six methods. -/
def SmsOp.call (env : Env) (m : ModemManager) : SmsOp → Res Bool
  | SmsOp.sendSms phone text => Smooth.sendSms env m phone text
  | SmsOp.listSms => Smooth.listSms env m
  | SmsOp.readSms index => Smooth.readSms env m index
  | SmsOp.deleteSms index => Smooth.deleteSms env m index
  | SmsOp.deleteAllSms => Smooth.deleteAllSms env m
  | SmsOp.queryNetRegistrationInfo => Smooth.queryNetRegistrationInfo env m

/-- A line of message text that itself begins with a response name. -/
def textLikeHeader : Str := "+CMGL came up".toList

/-- A phone number of 120 digits. -/
def longPhone : Str := List.replicate 120 (Char.ofNat 49)

/-- The size in bytes of the local buffer `command` of sendSms. -/
def commandBufferSize : Nat := MODEM_SMS_MAX_LENGTH

/-- An environment like `envSample` in which the device answers every command
with the error token: `send_cmd` returns `ESP_OK` and leaves
`MODEM_STATE_FAIL`. -/
def envSetupFails : Env :=
  { envOk sampleDce with send_cmd := fun _ => { ret := ESP_OK, state := MODEM_STATE_FAIL } }

/-- The manager after init and a successful connect on that device. -/
def connectedSetupFails : ModemManager :=
  (connect envSetupFails (init envSetupFails ModemManager.new).mgr).mgr

/-! ## Theorems -/

theorem exchange_log (env : Env) (m : ModemManager) (command : Str) (timeout : Nat) :
    (exchange env m command timeout).mgr.log =
      m.log ++ [Effect.send_cmd command timeout m.handle_line (env.send_cmd m.log.length)] := by
  simp only [exchange, send_cmd]
  split_ifs <;> rfl

theorem exchange_flag (env : Env) (m : ModemManager) (command : Str) (timeout : Nat) :
    (exchange env m command timeout).mgr.is_set_format = m.is_set_format := by
  simp only [exchange, send_cmd]
  split_ifs <;> rfl

theorem exchange_val (env : Env) (m : ModemManager) (command : Str) (timeout : Nat) :
    (exchange env m command timeout).val? =
      some (!decide ((env.send_cmd m.log.length).ret = ESP_OK ∧
        (env.send_cmd m.log.length).state = MODEM_STATE_SUCCESS)) := by
  simp only [exchange, send_cmd]
  split_ifs with h1 h2 <;> simp_all [Res.val?, boolOfErr, ESP_OK, ESP_FAIL]

/-- For every manager with a live dce and every device, deleteAllSms makes one
exchange, the command `AT+CMGD=1,3` with a carriage return under handleCmgs,
and the bool it returns is false exactly when that exchange succeeded. -/
theorem deleteAllSms_spec (env : Env) (m : ModemManager) (d : DceInfo) (hd : m.dce = some d) :
    effectsOf m (deleteAllSms env m) =
      [Effect.send_cmd "AT+CMGD=1,3\r".toList 300 Handler.handleCmgs
        (env.send_cmd m.log.length)] ∧
    (deleteAllSms env m).val? = some (!(env.send_cmd m.log.length).succeeded) := by
  unfold deleteAllSms effectsOf
  simp only [hd]
  rw [exchange_log, exchange_val]
  simp [CmdReply.succeeded, MODEM_COMMAND_TIMEOUT_COMMON]

/-- C1 (the code at the failing input): when the device answers the delete-all
command with the success token (`send_cmd` returns `ESP_OK` and leaves
`MODEM_STATE_SUCCESS`), deleteAllSms has submitted exactly `AT+CMGD=1,3` with
a carriage return, and the bool it returns is false, not true. -/
theorem deleteAllSms_success_returns_false :
    (deleteAllSms envSample connected).val? = some false ∧
    effectsOf connected (deleteAllSms envSample connected) =
      [Effect.send_cmd "AT+CMGD=1,3\r".toList 300 Handler.handleCmgs
        { ret := ESP_OK, state := MODEM_STATE_SUCCESS }] := by
  decide

/-- C2 (the code at the failing input): with text mode established and a
device that never shows the prompt (`send_wait` returns `ESP_FAIL`), sendSms
still submits the body command, and returns the conversion of `ESP_OK`, the
bool false. -/
theorem sendSms_no_prompt_still_sends_body :
    effectsOf textModeNoPrompt
        (sendSms envNoPrompt textModeNoPrompt "+84123".toList "hi".toList) =
      [Effect.send_wait "AT+CMGS=\"+84123\"\r".toList 17 "\r\n> ".toList 10 ESP_FAIL,
       Effect.send_cmd ("hi".toList ++ [CTRLZ]) 5000 Handler.handleCmgs
        { ret := ESP_OK, state := MODEM_STATE_SUCCESS }] ∧
    (sendSms envNoPrompt textModeNoPrompt "+84123".toList "hi".toList).val? =
      some (boolOfErr ESP_OK) ∧
    boolOfErr ESP_OK = false := by
  decide

/-- C3 (the code at the failing input): for index 1, and with text mode
established, readSms submits `AT+CMGR=` without the index and without the
carriage return; the 9-byte buffer cuts the command for every index. -/
theorem readSms_command_truncated :
    effectsOf textMode (readSms envSample textMode 1) =
      [Effect.send_cmd "AT+CMGR=".toList 300 Handler.handleCmgs
        { ret := ESP_OK, state := MODEM_STATE_SUCCESS }] ∧
    "AT+CMGR=".toList ≠ "AT+CMGR=".toList ++ fmt_d 1 ++ [CR] ∧
    ∀ index : Nat,
      (snprintf 9 ("AT+CMGR=".toList ++ fmt_d index ++ [CR])).1 = "AT+CMGR=".toList := by
  refine ⟨by decide, by decide, fun index => rfl⟩

/-- C4 (the code at the failing input): for index 1, deleteSms submits
`AT+CMGD=` without the index and without the carriage return; the 9-byte
buffer cuts the command for every index. -/
theorem deleteSms_command_truncated :
    effectsOf connected (deleteSms envSample connected 1) =
      [Effect.send_cmd "AT+CMGD=".toList 5000 Handler.handleCmgs
        { ret := ESP_OK, state := MODEM_STATE_SUCCESS }] ∧
    "AT+CMGD=".toList ≠ "AT+CMGD=".toList ++ fmt_d 1 ++ [CR] ∧
    ∀ index : Nat,
      (snprintf 9 ("AT+CMGD=".toList ++ fmt_d index ++ [CR])).1 = "AT+CMGD=".toList := by
  refine ⟨by decide, by decide, fun index => rfl⟩

/-- C5 (counterexample): for a body of 127 characters the command submitted
after the addressing step is the body alone, without the terminator 0x1A. -/
theorem sendSms_long_body_loses_terminator :
    effectsOf textMode (sendSms envSample textMode "+84123".toList longBody) =
      [Effect.send_wait "AT+CMGS=\"+84123\"\r".toList 17 "\r\n> ".toList 10 ESP_OK,
       Effect.send_cmd longBody 5000 Handler.handleCmgs
        { ret := ESP_OK, state := MODEM_STATE_SUCCESS }] ∧
    longBody ≠ longBody ++ [CTRLZ] := by
  decide

theorem c_str_of_no_nul (s : Str) (h : NUL ∉ s) : c_str s = s := by
  unfold c_str
  rw [List.takeWhile_eq_self_iff]
  intro x hx
  have : x ≠ NUL := fun e => h (e ▸ hx)
  simpa using this

theorem snprintf_body (text : Str) (hlen : text.length ≤ 126) (hnul : NUL ∉ text) :
    (snprintf MODEM_SMS_MAX_LENGTH (bodyText text)).1 = text ++ [CTRLZ] := by
  unfold snprintf bodyText MODEM_SMS_MAX_LENGTH
  rw [c_str_of_no_nul text hnul]
  apply List.take_of_length_le
  simp
  omega

/-- C5 (amended): whenever sendSms gets past the text-mode guard, and the body
has at most 126 characters and no NUL, the log of the call ends with the
addressing `send_wait` followed by one `send_cmd` whose command is exactly the
body followed by the single byte 0x1A, sent with handleCmgs installed and the
timeout of 5000 ms. -/
theorem sendSms_body_command (env : Env) (m : ModemManager) (d : DceInfo) (phone text : Str)
    (hd : m.dce = some d)
    (hg : (formatGuard env { m with handle_line := Handler.defaultHandle }).1 = true)
    (hlen : text.length ≤ 126) (hnul : NUL ∉ text) :
    (sendSms env m phone text).mgr.log =
      (formatGuard env { m with handle_line := Handler.defaultHandle }).2.log ++
        [Effect.send_wait (snprintf 128 (cmgsText phone)).1
            (snprintf 128 (cmgsText phone)).2.toNat "\r\n> ".toList 10
            (env.send_wait
              (formatGuard env { m with handle_line := Handler.defaultHandle }).2.log.length),
         Effect.send_cmd (text ++ [CTRLZ]) 5000 Handler.handleCmgs
            (env.send_cmd
              ((formatGuard env
                { m with handle_line := Handler.defaultHandle }).2.log.length + 1))] := by
  unfold sendSms
  simp only [hd] at hg ⊢
  simp only [hg]
  rw [snprintf_body text hlen hnul]
  simp [exchange_log, send_wait, MODEM_SMS_MAX_LENGTH, MODEM_PROMPT_TIMEOUT_MS,
    MODEM_COMMAND_TIMEOUT_SMS_MS]

/-! ### The handlers -/

theorem strncmp_eq_iff (lit line : Str) :
    strncmp_eq line lit lit.length = true ↔ line.take lit.length = lit := by
  induction lit generalizing line with
  | nil => simp [strncmp_eq]
  | cons d ds ih =>
    cases line with
    | nil => simp [strncmp_eq]
    | cons c cs => simp [strncmp_eq, ih]

theorem beginsWith_iff (line lit : Str) :
    beginsWith line lit = true ↔ line.take lit.length = lit :=
  strncmp_eq_iff lit line

/-- A line that begins with `b` does not begin with `a` when `a` is no longer
than `b` and differs from the start of `b`. -/
theorem beginsWith_excl (line a b : Str) (hlen : a.length ≤ b.length)
    (hne : b.take a.length ≠ a) (hb : beginsWith line b = true) :
    beginsWith line a = false := by
  by_contra hcon
  have ha : beginsWith line a = true := by simpa using hcon
  rw [beginsWith_iff] at ha hb
  apply hne
  rw [← hb, List.take_take, Nat.min_eq_left hlen, ha]

/-- The events handleCmgs publishes for a line without a result token. -/
theorem handleCmgs_payload (env : Env) (line : Str)
    (hs : strstr line env.MODEM_RESULT_CODE_SUCCESS = false)
    (he : strstr line env.MODEM_RESULT_CODE_ERROR = false)
    (hb : beginsWith line "+CMGR".toList = true ∨ beginsWith line "+CMGL".toList = true ∨
      beginsWith line "+NETMSG".toList = true) :
    handleCmgs env line = { err := ESP_OK, done := none, published := [ModemMessage.mk line] } := by
  unfold handleCmgs
  rcases hb with hb | hb | hb
  · have h1 := beginsWith_excl line "+CMGS".toList _ (by decide) (by decide) hb
    simp only [hs, he, h1, hb, Bool.false_eq_true, if_false, if_true]
  · have h1 := beginsWith_excl line "+CMGS".toList _ (by decide) (by decide) hb
    have h2 := beginsWith_excl line "+CMGR".toList _ (by decide) (by decide) hb
    simp only [hs, he, h1, h2, hb, Bool.false_eq_true, if_false, if_true]
  · have h1 := beginsWith_excl line "+CMGS".toList _ (by decide) (by decide) hb
    have h2 := beginsWith_excl line "+CMGR".toList _ (by decide) (by decide) hb
    have h3 := beginsWith_excl line "+CMGL".toList _ (by decide) (by decide) hb
    simp only [hs, he, h1, h2, h3, hb, Bool.false_eq_true, if_false, if_true]

/-- C6 (counterexample): a line that begins with +CMGR and in which the success
token occurs is answered by resolving the command, and no ModemMessage is
published for it. -/
theorem handleCmgs_token_line_not_published :
    beginsWith cmgrLineWithOk "+CMGR".toList = true ∧
    (handleCmgs envSample cmgrLineWithOk).published = [] ∧
    (handleCmgs envSample cmgrLineWithOk).done = some MODEM_STATE_SUCCESS := by
  decide

/-- C6 (amended): for every line in which neither the success nor the error
token occurs, handleCmgs publishes exactly one ModemMessage, carrying that raw
line, if the line begins with +CMGR, +CMGL or +NETMSG; and for every line in
which the success or the error token occurs it publishes no event. -/
theorem handleCmgs_published (env : Env) (line : Str) :
    (strstr line env.MODEM_RESULT_CODE_SUCCESS = false →
      strstr line env.MODEM_RESULT_CODE_ERROR = false →
      (beginsWith line "+CMGR".toList = true ∨ beginsWith line "+CMGL".toList = true ∨
        beginsWith line "+NETMSG".toList = true) →
      (handleCmgs env line).published = [ModemMessage.mk line] ∧
      (ModemMessage.mk line).get_buffer = line) ∧
    ((strstr line env.MODEM_RESULT_CODE_SUCCESS = true ∨
        strstr line env.MODEM_RESULT_CODE_ERROR = true) →
      (handleCmgs env line).published = []) := by
  constructor
  · intro hs he hb
    rw [handleCmgs_payload env line hs he hb]
    exact ⟨rfl, rfl⟩
  · intro h
    unfold handleCmgs
    rcases h with h | h
    · simp [h]
    · by_cases hs : strstr line env.MODEM_RESULT_CODE_SUCCESS = true <;> simp [h, hs]

/-- C6, at concrete inputs: a list-entry line without token is published, the line `OK` is not. -/
theorem handleCmgs_published_witness :
    (handleCmgs envSample cmglLine).published = [ModemMessage.mk cmglLine] ∧
    (handleCmgs envSample "OK".toList).published = [] :=
  ⟨((handleCmgs_published envSample cmglLine).1 (by decide) (by decide)
      (Or.inr (Or.inl (by decide)))).1,
   (handleCmgs_published envSample "OK".toList).2 (Or.inl (by decide))⟩

/-- C5, at a concrete input: the body `hi` sent to `+84123` once text mode is established. -/
theorem sendSms_body_command_witness :
    (sendSms envSample textMode "+84123".toList "hi".toList).mgr.log =
      (formatGuard envSample
          { textMode with handle_line := Handler.defaultHandle }).2.log ++
        [Effect.send_wait (snprintf 128 (cmgsText "+84123".toList)).1
            (snprintf 128 (cmgsText "+84123".toList)).2.toNat "\r\n> ".toList 10
            (envSample.send_wait
              (formatGuard envSample
                { textMode with handle_line := Handler.defaultHandle }).2.log.length),
         Effect.send_cmd ("hi".toList ++ [CTRLZ]) 5000 Handler.handleCmgs
            (envSample.send_cmd
              ((formatGuard envSample
                { textMode with handle_line := Handler.defaultHandle }).2.log.length + 1))] :=
  sendSms_body_command envSample textMode sampleDce "+84123".toList "hi".toList
    rfl (by decide) (by decide) (by decide)

/-! ### Listing -/

/-- When listSms gets past the text-mode guard, its own command is
`AT+CMGL="ALL"` with a carriage return, sent with handleCmgs installed. -/
theorem listSms_log (env : Env) (m : ModemManager) (d : DceInfo) (hd : m.dce = some d)
    (hg : (formatGuard env { m with handle_line := Handler.defaultHandle }).1 = true) :
    (listSms env m).mgr.log =
      (formatGuard env { m with handle_line := Handler.defaultHandle }).2.log ++
        [Effect.send_cmd "AT+CMGL=\"ALL\"\r".toList 300 Handler.handleCmgs
          (env.send_cmd
            (formatGuard env { m with handle_line := Handler.defaultHandle }).2.log.length)] := by
  unfold listSms
  simp only [hd] at hg ⊢
  simp only [hg]
  simp [exchange_log, MODEM_COMMAND_TIMEOUT_COMMON]

theorem feedFrom_payload (env : Env) (payload : List Str) (last : Str) (pos : Nat)
    (hp : ∀ l ∈ payload, beginsWith l "+CMGL".toList = true ∧
      strstr l env.MODEM_RESULT_CODE_SUCCESS = false ∧
      strstr l env.MODEM_RESULT_CODE_ERROR = false)
    (hl : strstr last env.MODEM_RESULT_CODE_SUCCESS = true) :
    feedFrom (handleCmgs env) pos (payload ++ [last]) =
      { published := payload.map ModemMessage.mk,
        resolved := [(pos + payload.length, MODEM_STATE_SUCCESS)] } := by
  induction payload generalizing pos with
  | nil => simp [feedFrom, handleCmgs, hl]
  | cons l rest ih =>
    have hl1 := hp l (List.mem_cons_self l rest)
    have hrest : ∀ x ∈ rest, beginsWith x "+CMGL".toList = true ∧
        strstr x env.MODEM_RESULT_CODE_SUCCESS = false ∧
        strstr x env.MODEM_RESULT_CODE_ERROR = false :=
      fun x hx => hp x (List.mem_cons_of_mem l hx)
    have hh := handleCmgs_payload env l hl1.2.1 hl1.2.2 (Or.inr (Or.inl hl1.1))
    have hi := ih (pos + 1) hrest
    simp only [List.cons_append, feedFrom]
    rw [hh, show rest.append [last] = rest ++ [last] from rfl, hi]
    simp
    omega

/-- C7 (counterexample): one list-entry line in which the success token occurs,
followed by the line of the success token: no event is published, and the
command is resolved twice, the first time on the payload line. -/
theorem feed_token_in_payload :
    beginsWith cmglLineWithOk "+CMGL".toList = true ∧
    feed (handleCmgs envSample) [cmglLineWithOk, "OK".toList] =
      { published := [],
        resolved := [(0, MODEM_STATE_SUCCESS), (1, MODEM_STATE_SUCCESS)] } := by
  decide

/-- C7 (amended): for every N and every sequence of N lines that begin with
+CMGL and in which neither the success nor the error token occurs, followed by
one line carrying the success token, feeding the lines in order to handleCmgs,
the handler listSms installs for its command, publishes exactly N
ModemMessage events (one per payload line, in order) and resolves the command
exactly once, with MODEM_STATE_SUCCESS, on the final line. -/
theorem listSms_feed (env : Env) (m : ModemManager) (d : DceInfo) (payload : List Str)
    (last : Str) (hd : m.dce = some d)
    (hg : (formatGuard env { m with handle_line := Handler.defaultHandle }).1 = true)
    (hp : ∀ l ∈ payload, beginsWith l "+CMGL".toList = true ∧
      strstr l env.MODEM_RESULT_CODE_SUCCESS = false ∧
      strstr l env.MODEM_RESULT_CODE_ERROR = false)
    (hl : strstr last env.MODEM_RESULT_CODE_SUCCESS = true) :
    (∃ pre r, (listSms env m).mgr.log =
      pre ++ [Effect.send_cmd "AT+CMGL=\"ALL\"\r".toList 300 Handler.handleCmgs r]) ∧
    Handler.run env Handler.handleCmgs = (fun line => some (handleCmgs env line)) ∧
    feed (handleCmgs env) (payload ++ [last]) =
      { published := payload.map ModemMessage.mk,
        resolved := [(payload.length, MODEM_STATE_SUCCESS)] } ∧
    (feed (handleCmgs env) (payload ++ [last])).published.length = payload.length := by
  have hfeed := feedFrom_payload env payload last 0 hp hl
  simp only [Nat.zero_add] at hfeed
  refine ⟨⟨_, _, listSms_log env m d hd hg⟩, rfl, hfeed, ?_⟩
  simp [feed, hfeed]

/-- C7, at a concrete input: two list-entry lines followed by the line `OK`. -/
theorem listSms_feed_witness :
    feed (handleCmgs envSample) ([cmglLine, cmglLine] ++ ["OK".toList]) =
      { published := [cmglLine, cmglLine].map ModemMessage.mk,
        resolved := [(2, MODEM_STATE_SUCCESS)] } :=
  (listSms_feed envSample textMode sampleDce [cmglLine, cmglLine] "OK".toList rfl
    (by decide) (by decide) (by decide)).2.2.1

/-! ### The text-mode guard -/

theorem boolOfErr_FAIL : boolOfErr ESP_FAIL = true := by decide

theorem boolOfErr_OK : boolOfErr ESP_OK = false := by decide

theorem intOfBool_true : ¬ intOfBool true = ESP_OK := by decide

theorem intOfBool_false : intOfBool false = ESP_OK := by decide

/-- The state after the text-mode exchange of setFormatSms. -/
theorem setFormatSms_eq (env : Env) (m : ModemManager) :
    setFormatSms env m =
      if (env.send_cmd m.log.length).succeeded = false then
        (true, { m with state := (env.send_cmd m.log.length).state,
                        log := m.log ++ [Effect.send_cmd CMGF env.MODEM_COMMAND_TIMEOUT_DEFAULT
                          m.handle_line (env.send_cmd m.log.length)] })
      else
        (decide ((env.send_cmd (m.log.length + 1)).succeeded = false),
          { m with handle_line := Handler.defaultHandle,
                   state := (env.send_cmd (m.log.length + 1)).state,
                   log := m.log ++ [Effect.send_cmd CMGF env.MODEM_COMMAND_TIMEOUT_DEFAULT
                            m.handle_line (env.send_cmd m.log.length),
                          cscsExchange env m] }) := by
  simp only [setFormatSms, send_cmd, CmdReply.succeeded, cscsExchange]
  by_cases a1 : (env.send_cmd m.log.length).ret = ESP_OK <;>
  by_cases a2 : (env.send_cmd m.log.length).state = MODEM_STATE_SUCCESS <;>
  by_cases a3 : (env.send_cmd (m.log.length + 1)).ret = ESP_OK <;>
  by_cases a4 : (env.send_cmd (m.log.length + 1)).state = MODEM_STATE_SUCCESS <;>
  simp [a1, a2, a3, a4, boolOfErr_FAIL, boolOfErr_OK, CMGF, CSCS]

theorem formatGuard_set (env : Env) (m : ModemManager) (hf : m.is_set_format = true) :
    formatGuard env m = (true, m) := by
  simp [formatGuard, hf]

theorem formatGuard_fail1 (env : Env) (m : ModemManager) (hf : m.is_set_format = false)
    (h1 : (env.send_cmd m.log.length).succeeded = false) :
    formatGuard env m =
      (false, { m with state := (env.send_cmd m.log.length).state,
                       log := m.log ++ [Effect.send_cmd CMGF env.MODEM_COMMAND_TIMEOUT_DEFAULT
                         m.handle_line (env.send_cmd m.log.length)] }) := by
  simp [formatGuard, setFormatSms_eq, hf, h1, intOfBool_true]

theorem formatGuard_fail2 (env : Env) (m : ModemManager) (hf : m.is_set_format = false)
    (h1 : (env.send_cmd m.log.length).succeeded = true)
    (h2 : (env.send_cmd (m.log.length + 1)).succeeded = false) :
    formatGuard env m =
      (false, { m with handle_line := Handler.defaultHandle,
                       state := (env.send_cmd (m.log.length + 1)).state,
                       log := m.log ++ [Effect.send_cmd CMGF env.MODEM_COMMAND_TIMEOUT_DEFAULT
                            m.handle_line (env.send_cmd m.log.length),
                          cscsExchange env m] }) := by
  simp [formatGuard, setFormatSms_eq, hf, h1, h2, intOfBool_true]

theorem formatGuard_ok (env : Env) (m : ModemManager) (hf : m.is_set_format = false)
    (h1 : (env.send_cmd m.log.length).succeeded = true)
    (h2 : (env.send_cmd (m.log.length + 1)).succeeded = true) :
    formatGuard env m =
      (true, { m with handle_line := Handler.defaultHandle,
                      state := (env.send_cmd (m.log.length + 1)).state,
                      is_set_format := true,
                      log := m.log ++ [Effect.send_cmd CMGF env.MODEM_COMMAND_TIMEOUT_DEFAULT
                            m.handle_line (env.send_cmd m.log.length),
                          cscsExchange env m] }) := by
  simp [formatGuard, setFormatSms_eq, hf, h1, h2, intOfBool_false]

theorem exchange_dce (env : Env) (m : ModemManager) (command : Str) (timeout : Nat) :
    (exchange env m command timeout).mgr.dce = m.dce := by
  simp only [exchange, send_cmd]
  split_ifs <;> rfl

/-- The body command is never one of the setup commands: it ends with 0x1A,
or it fills the buffer. -/
theorem body_not_setup (text c : Str) (hlen : c.length < 127)
    (hlast : c.getLast? ≠ some CTRLZ) :
    (snprintf MODEM_SMS_MAX_LENGTH (bodyText text)).1 ≠ c := by
  intro h
  simp only [snprintf, bodyText, MODEM_SMS_MAX_LENGTH] at h
  by_cases hl : (c_str text ++ [CTRLZ]).length ≤ 127
  · rw [List.take_of_length_le hl] at h
    apply hlast
    rw [← h]
    simp
  · have hlen2 := congrArg List.length h
    rw [List.length_take] at hlen2
    omega

theorem text_call_guard_false (env : Env) (m : ModemManager) (d : DceInfo) (op : TextOp)
    (hd : m.dce = some d)
    (hg : (formatGuard env { m with handle_line := Handler.defaultHandle }).1 = false) :
    op.call env m =
      Res.ok (boolOfErr ESP_FAIL)
        (formatGuard env { m with handle_line := Handler.defaultHandle }).2 := by
  simp only [hd] at hg
  cases op <;> simp [TextOp.call, sendSms, listSms, readSms, hd, hg]

/-- The addressing command starts with `AT+CMGS`, so it is none of the setup
commands. -/
theorem cmgs_not_setup (phone c : Str) (h : c.take 7 ≠ "AT+CMGS".toList) :
    (snprintf MODEM_SMS_MAX_LENGTH (cmgsText phone)).1 ≠ c := by
  intro e
  apply h
  rw [← e]
  rfl

theorem ownEffects_not_setup (env : Env) (g : ModemManager) (op : TextOp) :
    ∀ e ∈ ownEffects env g op, isSetupCommand e = false := by
  intro e he
  cases op with
  | sendSms phone text =>
    simp only [ownEffects, List.mem_singleton, List.mem_cons] at he
    rcases he with he | he | he
    · subst he
      have h1 := cmgs_not_setup phone CMGF (by decide)
      have h2 := cmgs_not_setup phone CSCS (by decide)
      simp [isSetupCommand, h1, h2]
    · subst he
      have h1 := body_not_setup text CMGF (by decide) (by decide)
      have h2 := body_not_setup text CSCS (by decide) (by decide)
      simp [isSetupCommand, h1, h2]
    · simp at he
  | listSms =>
    simp only [ownEffects, List.mem_singleton] at he
    subst he
    have h : (decide ("AT+CMGL=\"ALL\"\r".toList = CMGF) ||
        decide ("AT+CMGL=\"ALL\"\r".toList = CSCS)) = false := by decide
    exact h
  | readSms index =>
    simp only [ownEffects, List.mem_singleton] at he
    subst he
    have h : (snprintf 9 ("AT+CMGR=".toList ++ fmt_d index ++ [CR])).1 = "AT+CMGR=".toList :=
      rfl
    have h2 : (decide ("AT+CMGR=".toList = CMGF) ||
        decide ("AT+CMGR=".toList = CSCS)) = false := by decide
    simp only [isSetupCommand, h]
    exact h2

theorem text_call_guard_true (env : Env) (m : ModemManager) (d : DceInfo) (op : TextOp)
    (hd : m.dce = some d)
    (hg : (formatGuard env { m with handle_line := Handler.defaultHandle }).1 = true) :
    (op.call env m).mgr.log =
        (formatGuard env { m with handle_line := Handler.defaultHandle }).2.log ++
          ownEffects env (formatGuard env { m with handle_line := Handler.defaultHandle }).2 op ∧
      (op.call env m).mgr.is_set_format =
        (formatGuard env { m with handle_line := Handler.defaultHandle }).2.is_set_format ∧
      (op.call env m).mgr.dce =
        (formatGuard env { m with handle_line := Handler.defaultHandle }).2.dce := by
  simp only [hd] at hg ⊢
  cases op with
  | sendSms phone text =>
    simp [TextOp.call, sendSms, hd, hg, exchange_log, exchange_flag, exchange_dce, send_wait,
      ownEffects]
  | listSms =>
    simp [TextOp.call, listSms, hd, hg, exchange_log, exchange_flag, exchange_dce, ownEffects]
  | readSms index =>
    simp [TextOp.call, readSms, hd, hg, exchange_log, exchange_flag, exchange_dce, ownEffects]

/-! ### Calls that leave the format flag alone -/

theorem Frame.refl (m : ModemManager) : Frame m m := ⟨rfl, [], by simp⟩

theorem Frame.trans {a b c : ModemManager} (h1 : Frame a b) (h2 : Frame b c) : Frame a c := by
  obtain ⟨f1, s1, l1⟩ := h1
  obtain ⟨f2, s2, l2⟩ := h2
  exact ⟨f2.trans f1, s1 ++ s2, by rw [l2, l1, List.append_assoc]⟩

theorem frame_driverCall (env : Env) (m : ModemManager) (c : DriverCall) :
    Frame m (driverCall env m c).2 := ⟨rfl, _, rfl⟩

theorem frame_publish_status (m : ModemManager) (a b : Bool) :
    Frame m (publish_status m a b) := ⟨rfl, _, rfl⟩

theorem frame_checked {α : Type} (env : Env) (m0 m : ModemManager) (c : DriverCall)
    (rest : ModemManager → Res α) (h0 : Frame m0 m)
    (h : ∀ m2, Frame m0 m2 → Frame m0 (rest m2).mgr) :
    Frame m0 (checked env m c rest).mgr := by
  have h1 : Frame m0 (driverCall env m c).2 := h0.trans (frame_driverCall env m c)
  simp only [checked]
  split_ifs
  · exact h _ h1
  · exact h1

theorem frame_exchange (env : Env) (m : ModemManager) (command : Str) (timeout : Nat) :
    Frame m (exchange env m command timeout).mgr :=
  ⟨exchange_flag env m command timeout, _, exchange_log env m command timeout⟩

theorem frame_init (env : Env) (m : ModemManager) : Frame m (init env m).mgr := by
  unfold init
  apply frame_checked
  · refine ⟨rfl, ?_⟩
    simp only [driverCall, List.append_assoc]
    exact ⟨_, rfl⟩
  · intro m2 h2
    exact h2

theorem frame_connect (env : Env) (m : ModemManager) : Frame m (connect env m).mgr := by
  have hstart : ∀ created, Frame m
      { m with
        dce := created
        handle_line := Handler.vendor
        state := MODEM_STATE_IDLE
        log := m.log ++ [Effect.call DriverCall.n58_init] } :=
    fun _ => ⟨rfl, _, rfl⟩
  unfold connect
  cases hc : env.n58_init m.log.length with
  | none => exact hstart none
  | some dce =>
    simp only
    apply frame_checked _ _ _ _ _ (hstart _)
    intro m2 h2
    apply frame_checked _ _ _ _ _ h2
    intro m3 h3
    split_ifs
    · exact h3
    · apply frame_checked
      · exact ⟨h3.1, h3.2⟩
      · intro m4 h4
        exact h4.trans (frame_driverCall env m4 _)

theorem frame_onStop (env : Env) (m0 m : ModemManager) (h0 : Frame m0 m) :
    Frame m0 (onStop env m).mgr := by
  unfold onStop disconnect
  apply frame_checked _ _ _ _ _ h0
  intro m2 h2
  cases hd : m2.dce with
  | none => exact h2
  | some d =>
    simp only
    apply frame_checked _ _ _ _ _ h2
    intro m3 h3
    apply frame_checked _ _ _ _ _ h3
    intro m4 h4
    apply frame_checked
    · exact ⟨h4.1, h4.2⟩
    · intro m5 h5
      exact ⟨h5.1, h5.2⟩

theorem frame_event (env : Env) (m : ModemManager) (e : ModemEvent) :
    Frame m (modemEventHandlerStatic env m e).mgr := by
  cases e with
  | MODEM_EVENT_PPP_START => exact Frame.refl m
  | MODEM_EVENT_PPP_CONNECT => exact frame_publish_status m true true
  | MODEM_EVENT_PPP_DISCONNECT => exact frame_publish_status m false true
  | MODEM_EVENT_PPP_STOP => exact frame_onStop env m _ (frame_publish_status m false true)
  | MODEM_EVENT_UNKNOWN => exact Frame.refl m
  | other id => exact Frame.refl m

theorem frame_deleteSms (env : Env) (m : ModemManager) (index : Nat) :
    Frame m (deleteSms env m index).mgr := by
  unfold deleteSms
  cases hd : m.dce with
  | none => exact Frame.refl m
  | some d => exact (frame_exchange env _ _ _)

theorem frame_deleteAllSms (env : Env) (m : ModemManager) :
    Frame m (deleteAllSms env m).mgr := by
  unfold deleteAllSms
  cases hd : m.dce with
  | none => exact Frame.refl m
  | some d => exact (frame_exchange env _ _ _)

theorem frame_queryNetRegistrationInfo (env : Env) (m : ModemManager) :
    Frame m (queryNetRegistrationInfo env m).mgr := by
  unfold queryNetRegistrationInfo
  cases hd : m.dce with
  | none => exact Frame.refl m
  | some d => exact (frame_exchange env _ _ _)

/-! ### The guarded methods -/

theorem text_call_no_dce (env : Env) (m : ModemManager) (op : TextOp) (hd : m.dce = none) :
    op.call env m = Res.abort m := by
  cases op <;> simp [TextOp.call, sendSms, listSms, readSms, hd]

theorem setupSucceeded_own (env : Env) (g : ModemManager) (op : TextOp) :
    setupSucceeded (ownEffects env g op) = false := by
  cases op <;> simp [ownEffects, setupSucceeded, isOkExchange]

/-- What a guarded method adds to the log, and what it does to the format
flag. -/
theorem text_call_effects (env : Env) (m : ModemManager) (op : TextOp) :
    ∃ seg, (op.call env m).mgr.log = m.log ++ seg ∧
      (m.is_set_format = true →
        (op.call env m).mgr.is_set_format = true ∧ ∀ e ∈ seg, isSetupCommand e = false) ∧
      ((op.call env m).mgr.is_set_format = true →
        m.is_set_format = true ∨ setupSucceeded seg = true) ∧
      (setupSucceeded seg = true → (op.call env m).mgr.is_set_format = true) := by
  cases hd : m.dce with
  | none =>
    rw [text_call_no_dce env m op hd]
    exact ⟨[], by simp [Res.mgr], fun h => ⟨h, by simp⟩, fun h => Or.inl h,
      by simp [setupSucceeded]⟩
  | some d =>
    cases hf : m.is_set_format with
    | true =>
      have hg := formatGuard_set env { m with handle_line := Handler.defaultHandle } hf
      obtain ⟨h1, h2, _⟩ := text_call_guard_true env m d op hd (by rw [hg])
      rw [hg] at h1 h2
      refine ⟨_, h1, fun _ => ⟨by rw [h2]; exact hf, ownEffects_not_setup env _ op⟩,
        fun _ => Or.inl rfl, fun _ => by rw [h2]; exact hf⟩
    | false =>
      cases hr1 : (env.send_cmd m.log.length).succeeded with
      | false =>
        have hg := formatGuard_fail1 env { m with handle_line := Handler.defaultHandle } hf hr1
        have hc := text_call_guard_false env m d op hd (by rw [hg])
        rw [hg] at hc
        rw [hc]
        refine ⟨_, rfl, by simp, ?_, by simp [setupSucceeded]⟩
        simp [Res.mgr, hf]
      | true =>
        cases hr2 : (env.send_cmd (m.log.length + 1)).succeeded with
        | false =>
          have hg := formatGuard_fail2 env { m with handle_line := Handler.defaultHandle } hf
            hr1 hr2
          have hc := text_call_guard_false env m d op hd (by rw [hg])
          rw [hg] at hc
          rw [hc]
          refine ⟨_, rfl, by simp, ?_, ?_⟩
          · simp [Res.mgr, hf]
          · simp [setupSucceeded, isOkExchange, cscsExchange, hr2]
        | true =>
          have hg := formatGuard_ok env { m with handle_line := Handler.defaultHandle } hf
            hr1 hr2
          obtain ⟨h1, h2, _⟩ := text_call_guard_true env m d op hd (by rw [hg])
          rw [hg] at h1 h2
          simp only [List.append_assoc] at h1
          refine ⟨_, h1, by simp, fun _ => Or.inr ?_, fun _ => h2⟩
          simp [setupSucceeded, isOkExchange, cscsExchange, hr1, hr2]

/-! ### Runs -/

theorem setupSucceeded_append (l seg : List Effect) (h : setupSucceeded l = true) :
    setupSucceeded (l ++ seg) = true := by
  match l, h with
  | e1 :: e2 :: rest, h => simpa [setupSucceeded] using h

theorem setupSucceededBefore_of_start (seg : List Effect) (h : setupSucceeded seg = true) :
    setupSucceededBefore seg = true := by
  match seg, h with
  | e1 :: rest, h => simp [setupSucceededBefore, h]

theorem setupSucceededBefore_append (l seg : List Effect)
    (h : setupSucceededBefore l = true) : setupSucceededBefore (l ++ seg) = true := by
  induction l with
  | nil => simp [setupSucceededBefore] at h
  | cons e rest ih =>
    simp only [setupSucceededBefore, Bool.or_eq_true] at h
    simp only [List.cons_append, setupSucceededBefore, Bool.or_eq_true]
    rcases h with h | h
    · left
      have := setupSucceeded_append (e :: rest) seg h
      simpa using this
    · right
      exact ih h

theorem setupSucceededBefore_append_start (l seg : List Effect)
    (h : setupSucceeded seg = true) : setupSucceededBefore (l ++ seg) = true := by
  induction l with
  | nil => simpa using setupSucceededBefore_of_start seg h
  | cons e rest ih =>
    simp only [List.cons_append, setupSucceededBefore, Bool.or_eq_true]
    right
    exact ih

theorem res_match {α : Type} (r : Res α) (m1 : ModemManager)
    (h : r.returned = some m1) : r.mgr = m1 := by
  cases r <;> simp_all [Res.mgr, Res.returned]

theorem step_textOp (env : Env) (m m1 : ModemManager) (op : TextOp)
    (h : step env m op.toOp = some m1) : (op.call env m).mgr = m1 := by
  cases op <;> exact res_match _ _ h

/-- What one call of a run adds to the log, and what it does to the format
flag. -/
theorem step_effects (env : Env) (m m1 : ModemManager) (op : Op)
    (h : step env m op = some m1) :
    ∃ seg, m1.log = m.log ++ seg ∧
      (m.is_set_format = true → m1.is_set_format = true) ∧
      (m1.is_set_format = true → m.is_set_format = true ∨ setupSucceeded seg = true) := by
  have frame : ∀ m2, Frame m m2 → ∃ seg, m2.log = m.log ++ seg ∧
      (m.is_set_format = true → m2.is_set_format = true) ∧
      (m2.is_set_format = true → m.is_set_format = true ∨ setupSucceeded seg = true) := by
    intro m2 hfr
    obtain ⟨hf, seg, hl⟩ := hfr
    exact ⟨seg, hl, fun h => hf.trans h, fun h => Or.inl (hf.symm.trans h)⟩
  have text : ∀ top : TextOp, step env m top.toOp = some m1 → ∃ seg, m1.log = m.log ++ seg ∧
      (m.is_set_format = true → m1.is_set_format = true) ∧
      (m1.is_set_format = true → m.is_set_format = true ∨ setupSucceeded seg = true) := by
    intro top ht
    have hm := step_textOp env m m1 top ht
    obtain ⟨seg, h1, h2, h3, _⟩ := text_call_effects env m top
    rw [hm] at h1 h2 h3
    exact ⟨seg, h1, fun hf => (h2 hf).1, h3⟩
  cases op with
  | setConfig fc =>
    simp only [step, Option.some.injEq] at h
    subst h
    exact frame _ ⟨rfl, [], by simp [setConfig]⟩
  | init => have hm := res_match _ _ h; subst hm; exact frame _ (frame_init env m)
  | connect => have hm := res_match _ _ h; subst hm; exact frame _ (frame_connect env m)
  | stop =>
    have hm := res_match _ _ h; subst hm; exact frame _ (frame_onStop env m m (Frame.refl m))
  | sendSms phone body => exact text (TextOp.sendSms phone body) h
  | listSms => exact text TextOp.listSms h
  | readSms index => exact text (TextOp.readSms index) h
  | deleteSms index =>
    have hm := res_match _ _ h; subst hm; exact frame _ (frame_deleteSms env m index)
  | deleteAllSms =>
    have hm := res_match _ _ h; subst hm; exact frame _ (frame_deleteAllSms env m)
  | queryNetRegistrationInfo =>
    have hm := res_match _ _ h; subst hm; exact frame _ (frame_queryNetRegistrationInfo env m)
  | event e => have hm := res_match _ _ h; subst hm; exact frame _ (frame_event env m e)

theorem run_flag_sticky (env : Env) (ops : List Op) (m m1 : ModemManager)
    (h : run env m ops = some m1) (hf : m.is_set_format = true) : m1.is_set_format = true := by
  induction ops generalizing m with
  | nil =>
    simp only [run, Option.some.injEq] at h
    subst h
    exact hf
  | cons op rest ih =>
    simp only [run] at h
    cases hs : step env m op with
    | none => simp [hs] at h
    | some m2 =>
      simp only [hs] at h
      obtain ⟨_, _, h2, _⟩ := step_effects env m m2 op hs
      exact ih m2 h (h2 hf)

theorem run_invariant (env : Env) (ops : List Op) (m m1 : ModemManager)
    (h : run env m ops = some m1)
    (hinv : m.is_set_format = true → setupSucceededBefore m.log = true) :
    m1.is_set_format = true → setupSucceededBefore m1.log = true := by
  induction ops generalizing m with
  | nil =>
    simp only [run, Option.some.injEq] at h
    subst h
    exact hinv
  | cons op rest ih =>
    simp only [run] at h
    cases hs : step env m op with
    | none => simp [hs] at h
    | some m2 =>
      simp only [hs] at h
      obtain ⟨seg, hl, _, h3⟩ := step_effects env m m2 op hs
      apply ih m2 h
      intro hf2
      rw [hl]
      rcases h3 hf2 with h0 | h0
      · exact setupSucceededBefore_append _ _ (hinv h0)
      · exact setupSucceededBefore_append_start _ _ h0

theorem effectsOf_eq {α : Type} (m : ModemManager) (res : Res α) (seg : List Effect)
    (h : res.mgr.log = m.log ++ seg) : effectsOf m res = seg := by
  simp [effectsOf, h]

/-- C8: once one of sendSms, listSms and readSms has made both setup exchanges
with success, then after any further calls that return, the format flag is
still set, the guard of the next sendSms, listSms or readSms goes on without
touching the state, and that call issues neither `AT+CMGF=1` nor
`AT+CSCS="GSM"`. -/
theorem text_mode_guard_idempotent (env : Env) (m0 m2 : ModemManager) (op1 op2 : TextOp)
    (ops : List Op)
    (h1 : setupSucceeded (effectsOf m0 (op1.call env m0)) = true)
    (hrun : run env (op1.call env m0).mgr ops = some m2) :
    m2.is_set_format = true ∧
    formatGuard env { m2 with handle_line := Handler.defaultHandle } =
      (true, { m2 with handle_line := Handler.defaultHandle }) ∧
    ∀ e ∈ effectsOf m2 (op2.call env m2), isSetupCommand e = false := by
  obtain ⟨seg, hl, _, _, hset⟩ := text_call_effects env m0 op1
  rw [effectsOf_eq m0 _ seg hl] at h1
  have hflag : m2.is_set_format = true := run_flag_sticky env ops _ m2 hrun (hset h1)
  obtain ⟨seg2, hl2, h2, _, _⟩ := text_call_effects env m2 op2
  rw [effectsOf_eq m2 _ seg2 hl2]
  exact ⟨hflag, formatGuard_set env _ hflag, (h2 hflag).2⟩

/-- C8, at a concrete input: listSms on the connected manager, then deleteAllSms, then readSms(1). -/
theorem text_mode_guard_idempotent_witness :
    setupSucceeded (effectsOf connected (TextOp.listSms.call envSample connected)) = true ∧
    afterDelete.is_set_format = true ∧
    ∀ e ∈ effectsOf afterDelete ((TextOp.readSms 1).call envSample afterDelete),
      isSetupCommand e = false :=
  ⟨by decide,
   (text_mode_guard_idempotent envSample connected afterDelete TextOp.listSms
      (TextOp.readSms 1) [Op.deleteAllSms] (by decide) (by decide)).1,
   (text_mode_guard_idempotent envSample connected afterDelete TextOp.listSms
      (TextOp.readSms 1) [Op.deleteAllSms] (by decide) (by decide)).2.2⟩

/-- The three ways a guarded method can go when the format flag is not set:
the text-mode exchange fails, the character-set exchange fails, or both
succeed and the method goes on to its own exchanges. -/
theorem text_call_unset (env : Env) (m : ModemManager) (d : DceInfo) (op : TextOp)
    (hd : m.dce = some d) (hf : m.is_set_format = false) :
    ((env.send_cmd m.log.length).succeeded = false ∧
      op.call env m = Res.ok (boolOfErr ESP_FAIL)
        { m with handle_line := Handler.defaultHandle,
                 state := (env.send_cmd m.log.length).state,
                 log := m.log ++ [cmgfExchange env m] }) ∨
    ((env.send_cmd m.log.length).succeeded = true ∧
      (env.send_cmd (m.log.length + 1)).succeeded = false ∧
      op.call env m = Res.ok (boolOfErr ESP_FAIL)
        { m with handle_line := Handler.defaultHandle,
                 state := (env.send_cmd (m.log.length + 1)).state,
                 log := m.log ++ [cmgfExchange env m, cscsExchange env m] }) ∨
    ((env.send_cmd m.log.length).succeeded = true ∧
      (env.send_cmd (m.log.length + 1)).succeeded = true ∧
      (op.call env m).mgr.is_set_format = true ∧
      ∃ rest, (op.call env m).mgr.log =
        m.log ++ cmgfExchange env m :: cscsExchange env m :: rest) := by
  cases hr1 : (env.send_cmd m.log.length).succeeded with
  | false =>
    left
    have hg := formatGuard_fail1 env { m with handle_line := Handler.defaultHandle } hf hr1
    have hc := text_call_guard_false env m d op hd (by rw [hg])
    rw [hg] at hc
    exact ⟨rfl, hc⟩
  | true =>
    right
    cases hr2 : (env.send_cmd (m.log.length + 1)).succeeded with
    | false =>
      left
      have hg := formatGuard_fail2 env { m with handle_line := Handler.defaultHandle } hf
        hr1 hr2
      have hc := text_call_guard_false env m d op hd (by rw [hg])
      rw [hg] at hc
      exact ⟨rfl, rfl, hc⟩
    | true =>
      right
      have hg := formatGuard_ok env { m with handle_line := Handler.defaultHandle } hf hr1 hr2
      obtain ⟨h1, h2, _⟩ := text_call_guard_true env m d op hd (by rw [hg])
      rw [hg] at h1 h2
      generalize ownEffects env _ op = own at h1
      refine ⟨rfl, rfl, h2, own, ?_⟩
      rw [h1]
      simp only [List.append_assoc]
      rfl

/-- The format flag and the setup exchanges, for every device: a call of
sendSms, listSms or readSms that starts with the format flag unset always
sends `AT+CMGF=1` first and, after its success, `AT+CSCS="GSM"`;
it sets the flag if and only if both exchanges of that call succeeded
(`send_cmd == ESP_OK` and `dce->state == MODEM_STATE_SUCCESS`).  When the flag
stays unset the call returns `ESP_FAIL` (received by the caller as the bool
true), its only effects are the setup exchanges made so far, and the next
call starts again from `AT+CMGF=1`, followed by `AT+CSCS="GSM"` once that
exchange succeeds.  In every state a run reaches from a new
manager, a set flag implies that the log holds the two setup exchanges, one
after the other and both successful. -/
theorem format_flag_iff_setup (env : Env) (m : ModemManager) (d : DceInfo) (op : TextOp)
    (hd : m.dce = some d) (hf : m.is_set_format = false) :
    (∃ rest, (op.call env m).mgr.log = m.log ++ cmgfExchange env m :: rest) ∧
    ((env.send_cmd m.log.length).succeeded = true →
      ∃ rest, (op.call env m).mgr.log =
        m.log ++ cmgfExchange env m :: cscsExchange env m :: rest) ∧
    ((op.call env m).mgr.is_set_format = true ↔
      setupSucceeded (effectsOf m (op.call env m)) = true) ∧
    ((op.call env m).mgr.is_set_format = true ↔
      ((env.send_cmd m.log.length).succeeded = true ∧
        (env.send_cmd (m.log.length + 1)).succeeded = true)) ∧
    ((op.call env m).mgr.is_set_format = false →
      (op.call env m).val? = some (boolOfErr ESP_FAIL) ∧
      boolOfErr ESP_FAIL = true ∧
      (effectsOf m (op.call env m) = [cmgfExchange env m] ∨
        effectsOf m (op.call env m) = [cmgfExchange env m, cscsExchange env m]) ∧
      ∀ next : TextOp,
        (∃ rest, (next.call env (op.call env m).mgr).mgr.log =
          (op.call env m).mgr.log ++ cmgfExchange env (op.call env m).mgr :: rest) ∧
        ((env.send_cmd (op.call env m).mgr.log.length).succeeded = true →
          ∃ rest, (next.call env (op.call env m).mgr).mgr.log =
            (op.call env m).mgr.log ++ cmgfExchange env (op.call env m).mgr ::
              cscsExchange env (op.call env m).mgr :: rest)) ∧
    (∀ (ops : List Op) (m1 : ModemManager), run env ModemManager.new ops = some m1 →
      m1.is_set_format = true → setupSucceededBefore m1.log = true) := by
  have first : ∀ (m : ModemManager) (d : DceInfo) (op : TextOp), m.dce = some d →
      m.is_set_format = false →
      ∃ rest, (op.call env m).mgr.log = m.log ++ cmgfExchange env m :: rest := by
    intro m d op hd hf
    rcases text_call_unset env m d op hd hf with ⟨_, hc⟩ | ⟨_, _, hc⟩ | ⟨_, _, _, rest, hl⟩
    · exact ⟨[], by rw [hc]; rfl⟩
    · exact ⟨[cscsExchange env m], by rw [hc]; rfl⟩
    · exact ⟨_, hl⟩
  have second : ∀ (m : ModemManager) (d : DceInfo) (op : TextOp), m.dce = some d →
      m.is_set_format = false → (env.send_cmd m.log.length).succeeded = true →
      ∃ rest, (op.call env m).mgr.log =
        m.log ++ cmgfExchange env m :: cscsExchange env m :: rest := by
    intro m d op hd hf hr1
    rcases text_call_unset env m d op hd hf with ⟨h1, _⟩ | ⟨_, _, hc⟩ | ⟨_, _, _, rest, hl2⟩
    · rw [hr1] at h1; exact absurd h1 (by simp)
    · exact ⟨[], by rw [hc]; rfl⟩
    · exact ⟨_, hl2⟩
  obtain ⟨seg, hl, _, h3, h4⟩ := text_call_effects env m op
  rw [effectsOf_eq m _ seg hl]
  refine ⟨first m d op hd hf, second m d op hd hf, ⟨fun h => ?_, h4⟩, ?_, ?_, ?_⟩
  · rcases h3 h with h0 | h0
    · rw [hf] at h0; exact absurd h0 (by simp)
    · exact h0
  · rcases text_call_unset env m d op hd hf with ⟨h1, hc⟩ | ⟨h1, h2, hc⟩ | ⟨h1, h2, hfl, _⟩
    · rw [hc]; simp [Res.mgr, hf, h1]
    · rw [hc]; simp [Res.mgr, hf, h1, h2]
    · simp [hfl, h1, h2]
  · intro hunset
    rcases text_call_unset env m d op hd hf with ⟨_, hc⟩ | ⟨_, _, hc⟩ | ⟨_, _, hfl, _⟩
    · rw [hc] at hl ⊢
      have hseg : seg = [cmgfExchange env m] := by
        have := hl
        simp only [Res.mgr] at this
        exact (List.append_cancel_left this).symm
      refine ⟨rfl, boolOfErr_FAIL, Or.inl hseg, fun next => ⟨?_, ?_⟩⟩
      · exact first _ d next (by simp [Res.mgr, hd]) (by simp [Res.mgr, hf])
      · exact second _ d next (by simp [Res.mgr, hd]) (by simp [Res.mgr, hf])
    · rw [hc] at hl ⊢
      have hseg : seg = [cmgfExchange env m, cscsExchange env m] := by
        have := hl
        simp only [Res.mgr] at this
        exact (List.append_cancel_left this).symm
      refine ⟨rfl, boolOfErr_FAIL, Or.inr hseg, fun next => ⟨?_, ?_⟩⟩
      · exact first _ d next (by simp [Res.mgr, hd]) (by simp [Res.mgr, hf])
      · exact second _ d next (by simp [Res.mgr, hd]) (by simp [Res.mgr, hf])
    · rw [hfl] at hunset; exact absurd hunset (by simp)
  · intro ops m1 hrun
    exact run_invariant env ops ModemManager.new m1 hrun (by simp [ModemManager.new])

/-- The format flag and the setup exchanges at a concrete input: listSms on
the connected manager, whose flag is still unset. -/
theorem format_flag_iff_setup_witness :
    ((TextOp.listSms.call envSample connected).mgr.is_set_format = true ↔
      setupSucceeded (effectsOf connected (TextOp.listSms.call envSample connected)) = true) ∧
    ((TextOp.listSms.call envSample connected).mgr.is_set_format = true ↔
      ((envSample.send_cmd connected.log.length).succeeded = true ∧
        (envSample.send_cmd (connected.log.length + 1)).succeeded = true)) :=
  ⟨(format_flag_iff_setup envSample connected sampleDce TextOp.listSms rfl rfl).2.2.1,
   (format_flag_iff_setup envSample connected sampleDce TextOp.listSms rfl rfl).2.2.2.1⟩

/-- C9 (the code at the failing input): on the connected manager, whose format
flag is unset, the device answers `AT+CMGF=1` with the error token.  listSms
then leaves the flag unset and issues no `AT+CMGL`, its only effect being the
failed setup exchange, but the bool it returns is true, the value connect()
returned for its success: the failure is not reported to the caller. -/
theorem listSms_setup_failure_returns_true :
    (connect envSetupFails (init envSetupFails ModemManager.new).mgr).val? = some true ∧
    connectedSetupFails.is_set_format = false ∧
    effectsOf connectedSetupFails (listSms envSetupFails connectedSetupFails) =
      [Effect.send_cmd "AT+CMGF=1\r".toList 500 Handler.defaultHandle
        { ret := ESP_OK, state := MODEM_STATE_FAIL }] ∧
    (listSms envSetupFails connectedSetupFails).mgr.is_set_format = false ∧
    (listSms envSetupFails connectedSetupFails).val? = some true := by
  decide

/-! ### Published status events -/

theorem statuses_append (l seg : List Effect) :
    statuses (l ++ seg) = statuses l ++ statuses seg := by
  induction l with
  | nil => rfl
  | cons e rest ih => cases e <;> simp [statuses, ih]

theorem quiet_driverCall (env : Env) (m : ModemManager) (c : DriverCall) :
    statuses (driverCall env m c).2.log = statuses m.log := by
  simp [driverCall, statuses_append, statuses]

theorem quiet_checked {α : Type} (env : Env) (m : ModemManager) (c : DriverCall)
    (rest : ModemManager → Res α) (l : List NetworkStatus) (h0 : statuses m.log = l)
    (h : ∀ m2, statuses m2.log = l → statuses (rest m2).mgr.log = l) :
    statuses (checked env m c rest).mgr.log = l := by
  have h1 : statuses (driverCall env m c).2.log = l := (quiet_driverCall env m c).trans h0
  simp only [checked]
  split_ifs
  · exact h _ h1
  · exact h1

/-- The method init publishes no status event. -/
theorem quiet_init (env : Env) (m : ModemManager) :
    statuses (init env m).mgr.log = statuses m.log := by
  unfold init
  apply quiet_checked
  · simp [driverCall, statuses_append, statuses]
  · intro m2 h2
    exact h2

/-- The method connect publishes no status event. -/
theorem quiet_connect (env : Env) (m : ModemManager) :
    statuses (connect env m).mgr.log = statuses m.log := by
  have hstart : statuses (m.log ++ [Effect.call DriverCall.n58_init]) = statuses m.log := by
    simp [statuses_append, statuses]
  unfold connect
  cases hc : env.n58_init m.log.length with
  | none => exact hstart
  | some dce =>
    simp only
    apply quiet_checked _ _ _ _ _ hstart
    intro m2 h2
    apply quiet_checked _ _ _ _ _ h2
    intro m3 h3
    split_ifs
    · exact h3
    · apply quiet_checked
      · exact h3
      · intro m4 h4
        exact (quiet_driverCall env m4 _).trans h4

/-- C10: in the run init(); connect() returning true; the notification
MODEM_EVENT_PPP_CONNECT; the notification MODEM_EVENT_PPP_DISCONNECT, started
on a manager that has published nothing, init and connect publish no
NetworkStatus, and the events published in the whole run are exactly
{GOT_IP, ip_changed = true} and then {DISCONNECTED, ip_changed = true}. -/
theorem lifecycle_status_events (env : Env) (m0 m1 m2 m3 m4 : ModemManager)
    (h0 : statuses m0.log = [])
    (hinit : init env m0 = Res.ok () m1)
    (hconnect : connect env m1 = Res.ok true m2)
    (hup : modemEventHandlerStatic env m2 ModemEvent.MODEM_EVENT_PPP_CONNECT = Res.ok () m3)
    (hdown : modemEventHandlerStatic env m3 ModemEvent.MODEM_EVENT_PPP_DISCONNECT =
      Res.ok () m4) :
    statuses m1.log = [] ∧ statuses m2.log = [] ∧
    statuses m3.log = [NetworkStatus.mk NetworkEvent.GOT_IP true] ∧
    statuses m4.log = [NetworkStatus.mk NetworkEvent.GOT_IP true,
      NetworkStatus.mk NetworkEvent.DISCONNECTED true] := by
  have e1 : statuses m1.log = [] := by
    have := quiet_init env m0
    rw [hinit] at this
    exact this.trans h0
  have e2 : statuses m2.log = [] := by
    have := quiet_connect env m1
    rw [hconnect] at this
    exact this.trans e1
  have e3 : statuses m3.log = [NetworkStatus.mk NetworkEvent.GOT_IP true] := by
    simp only [modemEventHandlerStatic, Res.ok.injEq, true_and] at hup
    rw [← hup]
    simp [publish_status, publish, statuses_append, statuses, e2]
  refine ⟨e1, e2, e3, ?_⟩
  simp only [modemEventHandlerStatic, Res.ok.injEq, true_and] at hdown
  rw [← hdown]
  simp [publish_status, publish, statuses_append, statuses, e3]

/-- C10, at a concrete input: the run on a new manager and the sample device. -/
theorem lifecycle_status_events_witness :
    statuses (init envSample ModemManager.new).mgr.log = [] ∧
    statuses (connect envSample (init envSample ModemManager.new).mgr).mgr.log = [] ∧
    statuses (publish_status (publish_status
      (connect envSample (init envSample ModemManager.new).mgr).mgr true true) false true).log =
      [NetworkStatus.mk NetworkEvent.GOT_IP true,
       NetworkStatus.mk NetworkEvent.DISCONNECTED true] :=
  have h := lifecycle_status_events envSample ModemManager.new
    (init envSample ModemManager.new).mgr
    (connect envSample (init envSample ModemManager.new).mgr).mgr
    (publish_status (connect envSample (init envSample ModemManager.new).mgr).mgr true true)
    (publish_status (publish_status
      (connect envSample (init envSample ModemManager.new).mgr).mgr true true) false true)
    (by decide) rfl rfl rfl rfl
  ⟨h.1, h.2.1, h.2.2.2⟩

/-! ### Teardown -/

theorem checked_ok {α : Type} (env : Env) (m : ModemManager) (c : DriverCall)
    (rest : ModemManager → Res α) (h : env.driver m.log.length = ESP_OK) :
    checked env m c rest = rest { m with log := m.log ++ [Effect.call c] } := by
  simp [checked, driverCall, h]

theorem checked_fail {α : Type} (env : Env) (m : ModemManager) (c : DriverCall)
    (rest : ModemManager → Res α) (h : env.driver m.log.length ≠ ESP_OK) :
    checked env m c rest = Res.abort { m with log := m.log ++ [Effect.call c] } := by
  simp [checked, driverCall, h]

/-- A teardown that returns has made the four driver calls in order, and
nothing else; the dce and the dte are released. -/
theorem onStop_returns (env : Env) (m m1 : ModemManager) (h : onStop env m = Res.ok () m1) :
    m1.log = m.log ++ teardownCalls ∧ m1.dce = none ∧ m1.dte = false := by
  unfold onStop disconnect at h
  by_cases h1 : env.driver m.log.length = ESP_OK
  · rw [checked_ok env m _ _ h1] at h
    cases hd : m.dce with
    | none => simp [hd] at h
    | some d =>
      simp only [hd] at h
      by_cases h2 : env.driver (m.log.length + 1) = ESP_OK
      · rw [checked_ok _ _ _ _ (by simpa using h2)] at h
        by_cases h3 : env.driver (m.log.length + 2) = ESP_OK
        · rw [checked_ok _ _ _ _ (by simpa using h3)] at h
          by_cases h4 : env.driver (m.log.length + 3) = ESP_OK
          · rw [checked_ok _ _ _ _ (by simpa using h4)] at h
            simp only [Res.ok.injEq, true_and] at h
            subst h
            simp [teardownCalls]
          · rw [checked_fail _ _ _ _ (by simpa using h4)] at h
            simp at h
        · rw [checked_fail _ _ _ _ (by simpa using h3)] at h
          simp at h
      · rw [checked_fail _ _ _ _ (by simpa using h2)] at h
        simp at h
  · rw [checked_fail env m _ _ h1] at h
    simp at h

/-- C11 (counterexample): on the connected manager an explicit stop() makes the
four teardown calls and publishes no NetworkStatus, and the notification
MODEM_EVENT_PPP_STOP publishes {DISCONNECTED, ip_changed = true} before the
teardown, not after it. -/
theorem stop_publishes_nothing :
    effectsOf connected (stop envSample connected) = teardownCalls ∧
    statuses (effectsOf connected (stop envSample connected)) = [] ∧
    effectsOf connected
        (modemEventHandlerStatic envSample connected ModemEvent.MODEM_EVENT_PPP_STOP) =
      Effect.publish statusDisconnected :: teardownCalls := by
  decide

/-- Whatever the driver answers, a teardown makes an initial part of the four
driver calls, in their order, and nothing else. -/
theorem onStop_effects (env : Env) (m : ModemManager) :
    ∃ n, (onStop env m).mgr.log = m.log ++ teardownCalls.take n := by
  unfold onStop disconnect
  by_cases h1 : env.driver m.log.length = ESP_OK
  · rw [checked_ok env m _ _ h1]
    cases hd : m.dce with
    | none => exact ⟨1, by simp [hd, Res.mgr, teardownCalls]⟩
    | some d =>
      simp only [hd]
      by_cases h2 : env.driver (m.log.length + 1) = ESP_OK
      · rw [checked_ok _ _ _ _ (by simpa using h2)]
        by_cases h3 : env.driver (m.log.length + 2) = ESP_OK
        · rw [checked_ok _ _ _ _ (by simpa using h3)]
          by_cases h4 : env.driver (m.log.length + 3) = ESP_OK
          · rw [checked_ok _ _ _ _ (by simpa using h4)]
            exact ⟨4, by simp [Res.mgr, teardownCalls]⟩
          · rw [checked_fail _ _ _ _ (by simpa using h4)]
            exact ⟨4, by simp [Res.mgr, teardownCalls]⟩
        · rw [checked_fail _ _ _ _ (by simpa using h3)]
          exact ⟨3, by simp [Res.mgr, teardownCalls]⟩
      · rw [checked_fail _ _ _ _ (by simpa using h2)]
        exact ⟨2, by simp [Res.mgr, teardownCalls]⟩
  · rw [checked_fail env m _ _ h1]
    exact ⟨1, by simp [Res.mgr, teardownCalls]⟩

/-- No initial part of the teardown calls holds a published status. -/
theorem statuses_teardown (n : Nat) : statuses (teardownCalls.take n) = [] := by
  rcases n with _ | _ | _ | _ | _ | n <;> rfl

/-- C11 (amended): an explicit stop() and the notification MODEM_EVENT_PPP_STOP
run the same teardown, onStop.  On every path, also one that stops at a
failed driver call, the teardown makes an initial part of the calls leave PPP
mode, power the module down, release the dce, release the dte, in this order,
and when it runs to its end it has made all four.  On every path stop()
publishes nothing, and the notification publishes exactly one NetworkStatus
{DISCONNECTED, ip_changed = true}, as its first effect, before the
teardown. -/
theorem teardown_order (env : Env) (m : ModemManager) :
    stop env m = onStop env m ∧
    modemEventHandlerStatic env m ModemEvent.MODEM_EVENT_PPP_STOP =
      onStop env (publish_status m false true) ∧
    (∃ n, effectsOf m (stop env m) = teardownCalls.take n) ∧
    statuses (effectsOf m (stop env m)) = [] ∧
    (∃ n, effectsOf m (modemEventHandlerStatic env m ModemEvent.MODEM_EVENT_PPP_STOP) =
      Effect.publish statusDisconnected :: teardownCalls.take n) ∧
    statuses (effectsOf m (modemEventHandlerStatic env m ModemEvent.MODEM_EVENT_PPP_STOP)) =
      [statusDisconnected] ∧
    (∀ m1, stop env m = Res.ok () m1 →
      effectsOf m (stop env m) = teardownCalls ∧ m1.dce = none ∧ m1.dte = false) ∧
    (∀ m2, modemEventHandlerStatic env m ModemEvent.MODEM_EVENT_PPP_STOP = Res.ok () m2 →
      effectsOf m (modemEventHandlerStatic env m ModemEvent.MODEM_EVENT_PPP_STOP) =
        Effect.publish statusDisconnected :: teardownCalls ∧
      m2.dce = none ∧ m2.dte = false) := by
  obtain ⟨n1, hn1⟩ := onStop_effects env m
  obtain ⟨n2, hn2⟩ := onStop_effects env (publish_status m false true)
  have he1 : effectsOf m (stop env m) = teardownCalls.take n1 := effectsOf_eq m _ _ hn1
  have he2 : effectsOf m (modemEventHandlerStatic env m ModemEvent.MODEM_EVENT_PPP_STOP) =
      Effect.publish statusDisconnected :: teardownCalls.take n2 := by
    apply effectsOf_eq
    show (onStop env (publish_status m false true)).mgr.log = _
    rw [hn2]
    simp [publish_status, publish, statusDisconnected]
  refine ⟨rfl, rfl, ⟨n1, he1⟩, ?_, ⟨n2, he2⟩, ?_, ?_, ?_⟩
  · rw [he1]
    exact statuses_teardown n1
  · rw [he2]
    simp [statuses, statuses_teardown]
  · intro m1 h
    obtain ⟨hl, hd, ht⟩ := onStop_returns env m m1 h
    have he : effectsOf m (stop env m) = teardownCalls := by
      rw [h]; exact effectsOf_eq m _ _ hl
    exact ⟨he, hd, ht⟩
  · intro m2 h
    have h' : onStop env (publish_status m false true) = Res.ok () m2 := h
    obtain ⟨hl, hd, ht⟩ := onStop_returns env _ m2 h'
    have he : effectsOf m
        (modemEventHandlerStatic env m ModemEvent.MODEM_EVENT_PPP_STOP) =
        Effect.publish statusDisconnected :: teardownCalls := by
      rw [h]
      apply effectsOf_eq
      simp only [Res.mgr]
      rw [hl]
      simp [publish_status, publish, statusDisconnected]
    exact ⟨he, hd, ht⟩

/-- C11, at a concrete input: stop() and the notification on the connected
manager of the sample device. -/
theorem teardown_order_witness :
    effectsOf connected (stop envSample connected) = teardownCalls ∧
    effectsOf connected
        (modemEventHandlerStatic envSample connected ModemEvent.MODEM_EVENT_PPP_STOP) =
      Effect.publish statusDisconnected :: teardownCalls :=
  ⟨((teardown_order envSample connected).2.2.2.2.2.2.1 (stop envSample connected).mgr rfl).1,
   ((teardown_order envSample connected).2.2.2.2.2.2.2
      (modemEventHandlerStatic envSample connected ModemEvent.MODEM_EVENT_PPP_STOP).mgr rfl).1⟩

/-! ### Connect -/

/-- The ways `connect` can go, each with the state it leaves. -/
theorem connect_cases (env : Env) (m : ModemManager) :
    (env.n58_init m.log.length = none ∧
      (connect env m).val? = some false ∧
      effectsOf m (connect env m) = (connectCalls m.flow_control).take 1 ∧
      identity (connect env m).mgr = identity m ∧ (connect env m).mgr.dce = none) ∨
    (∃ dce, env.n58_init m.log.length = some dce ∧
      env.driver (m.log.length + 1) ≠ ESP_OK ∧
      (connect env m).val? = none ∧
      effectsOf m (connect env m) = (connectCalls m.flow_control).take 2 ∧
      identity (connect env m).mgr = identity m) ∨
    (∃ dce, env.n58_init m.log.length = some dce ∧
      env.driver (m.log.length + 1) = ESP_OK ∧ env.driver (m.log.length + 2) ≠ ESP_OK ∧
      (connect env m).val? = none ∧
      effectsOf m (connect env m) = (connectCalls m.flow_control).take 3 ∧
      identity (connect env m).mgr = identity m) ∨
    (∃ dce, env.n58_init m.log.length = some dce ∧
      env.driver (m.log.length + 1) = ESP_OK ∧ env.driver (m.log.length + 2) = ESP_OK ∧
      dce.ccid.length < 2 ∧
      (connect env m).val? = none ∧
      effectsOf m (connect env m) = (connectCalls m.flow_control).take 3) ∨
    (∃ dce, env.n58_init m.log.length = some dce ∧
      env.driver (m.log.length + 1) = ESP_OK ∧ env.driver (m.log.length + 2) = ESP_OK ∧
      2 ≤ dce.ccid.length ∧ env.driver (m.log.length + 3) ≠ ESP_OK ∧
      (connect env m).val? = none ∧
      effectsOf m (connect env m) = (connectCalls m.flow_control).take 4 ∧
      identity (connect env m).mgr = identityOf dce) ∨
    (∃ dce, env.n58_init m.log.length = some dce ∧
      env.driver (m.log.length + 1) = ESP_OK ∧ env.driver (m.log.length + 2) = ESP_OK ∧
      2 ≤ dce.ccid.length ∧ env.driver (m.log.length + 3) = ESP_OK ∧
      (connect env m).val? = some (decide (env.driver (m.log.length + 4) = ESP_OK)) ∧
      effectsOf m (connect env m) = connectCalls m.flow_control ∧
      identity (connect env m).mgr = identityOf dce ∧
      (connect env m).mgr.dce = some dce) := by
  unfold connect
  cases hc : env.n58_init m.log.length with
  | none =>
    left
    simp [effectsOf, Res.mgr, Res.val?, connectCalls, identity, ModemManager.getImei,
      ModemManager.getImsi, ModemManager.getCcid]
  | some dce =>
    right
    simp only
    by_cases h1 : env.driver (m.log.length + 1) = ESP_OK
    · rw [checked_ok _ _ _ _ (by simpa using h1)]
      right
      by_cases h2 : env.driver (m.log.length + 2) = ESP_OK
      · rw [checked_ok _ _ _ _ (by simpa using h2)]
        right
        by_cases hlen : dce.ccid.length < 2
        · left
          refine ⟨dce, rfl, h1, h2, hlen, ?_, ?_⟩
          · simp [hlen, Res.val?]
          · simp [hlen, effectsOf, Res.mgr, connectCalls]
        · right
          have hlen2 : 2 ≤ dce.ccid.length := by omega
          simp only [hlen, if_false]
          by_cases h3 : env.driver (m.log.length + 3) = ESP_OK
          · rw [checked_ok _ _ _ _ (by simpa using h3)]
            right
            refine ⟨dce, rfl, h1, h2, hlen2, h3, ?_, ?_, ?_, ?_⟩
            · simp [Res.val?, driverCall]
            · simp [effectsOf, Res.mgr, driverCall, connectCalls]
            · simp [Res.mgr, driverCall, identity, identityOf, ModemManager.getImei,
                ModemManager.getImsi, ModemManager.getCcid]
            · simp [Res.mgr, driverCall]
          · rw [checked_fail _ _ _ _ (by simpa using h3)]
            left
            refine ⟨dce, rfl, h1, h2, hlen2, h3, ?_, ?_, ?_⟩
            · simp [Res.val?]
            · simp [effectsOf, Res.mgr, connectCalls]
            · simp [Res.mgr, identity, identityOf, ModemManager.getImei,
                ModemManager.getImsi, ModemManager.getCcid]
      · rw [checked_fail _ _ _ _ (by simpa using h2)]
        left
        refine ⟨dce, rfl, h1, h2, ?_, ?_, ?_⟩
        · simp [Res.val?]
        · simp [effectsOf, Res.mgr, connectCalls]
        · simp [Res.mgr, identity, ModemManager.getImei, ModemManager.getImsi,
            ModemManager.getCcid]
    · rw [checked_fail _ _ _ _ (by simpa using h1)]
      left
      refine ⟨dce, rfl, h1, ?_, ?_, ?_⟩
      · simp [Res.val?]
      · simp [effectsOf, Res.mgr, connectCalls]
      · simp [Res.mgr, identity, ModemManager.getImei, ModemManager.getImsi,
          ModemManager.getCcid]

/-- C13: connect makes its driver calls in the order handshake (n58_init), flow
control, profile store, signal quality, PPP setup, and stops at the first step
that fails: its calls are always an initial part of that list.  The identity
is copied after the profile store and before the signal-quality query.  A
failed handshake returns false after the one call, with the identity
untouched.  connect returns true if and only if every step succeeded and
esp_modem_setup_ppp returned `ESP_OK`, and then all five calls were made. -/
theorem connect_order (env : Env) (m : ModemManager) :
    (∃ n, effectsOf m (connect env m) = (connectCalls m.flow_control).take n) ∧
    (env.n58_init m.log.length = none →
      (connect env m).val? = some false ∧
      effectsOf m (connect env m) = [Effect.call DriverCall.n58_init] ∧
      identity (connect env m).mgr = identity m) ∧
    (env.n58_init m.log.length ≠ none → env.driver (m.log.length + 1) ≠ ESP_OK →
      (connect env m).val? = none ∧
      effectsOf m (connect env m) = (connectCalls m.flow_control).take 2 ∧
      identity (connect env m).mgr = identity m) ∧
    (env.n58_init m.log.length ≠ none → env.driver (m.log.length + 1) = ESP_OK →
      env.driver (m.log.length + 2) ≠ ESP_OK →
      (connect env m).val? = none ∧
      effectsOf m (connect env m) = (connectCalls m.flow_control).take 3 ∧
      identity (connect env m).mgr = identity m) ∧
    (∀ dce, env.n58_init m.log.length = some dce → env.driver (m.log.length + 1) = ESP_OK →
      env.driver (m.log.length + 2) = ESP_OK → dce.ccid.length < 2 →
      (connect env m).val? = none ∧
      effectsOf m (connect env m) = (connectCalls m.flow_control).take 3) ∧
    (∀ dce, env.n58_init m.log.length = some dce → env.driver (m.log.length + 1) = ESP_OK →
      env.driver (m.log.length + 2) = ESP_OK → 2 ≤ dce.ccid.length →
      env.driver (m.log.length + 3) ≠ ESP_OK →
      (connect env m).val? = none ∧
      effectsOf m (connect env m) = (connectCalls m.flow_control).take 4 ∧
      identity (connect env m).mgr = identityOf dce) ∧
    ((connect env m).val? = some true ↔
      ∃ dce, env.n58_init m.log.length = some dce ∧
        env.driver (m.log.length + 1) = ESP_OK ∧ env.driver (m.log.length + 2) = ESP_OK ∧
        2 ≤ dce.ccid.length ∧ env.driver (m.log.length + 3) = ESP_OK ∧
        env.driver (m.log.length + 4) = ESP_OK) ∧
    ((connect env m).val? = some true →
      effectsOf m (connect env m) = connectCalls m.flow_control) := by
  rcases connect_cases env m with ⟨h0, hv, he, hi, _⟩ | ⟨dce, h0, h1, hv, he, hi⟩ |
    ⟨dce, h0, h1, h2, hv, he, hi⟩ | ⟨dce, h0, h1, h2, hl, hv, he⟩ |
    ⟨dce, h0, h1, h2, hl, h3, hv, he, hi⟩ | ⟨dce, h0, h1, h2, hl, h3, hv, he, hi, _⟩
  · refine ⟨⟨1, he⟩, ?_, ?_, ?_, ?_, ?_, ?_, ?_⟩ <;> simp_all [connectCalls]
  · refine ⟨⟨2, he⟩, ?_, ?_, ?_, ?_, ?_, ?_, ?_⟩ <;> simp_all
  · refine ⟨⟨3, he⟩, ?_, ?_, ?_, ?_, ?_, ?_, ?_⟩ <;> simp_all
  · refine ⟨⟨3, he⟩, ?_, ?_, ?_, ?_, ?_, ?_, ?_⟩ <;> simp_all
  · refine ⟨⟨4, he⟩, ?_, ?_, ?_, ?_, ?_, ?_, ?_⟩ <;> simp_all
  · refine ⟨⟨5, by rw [he]; rfl⟩, ?_, ?_, ?_, ?_, ?_, ?_, ?_⟩ <;> simp_all

/-- C13, at a concrete input: connect on the initialised manager of the sample
device returns true after all five calls. -/
theorem connect_order_witness :
    (connect envSample initialized).val? = some true ∧
    effectsOf initialized (connect envSample initialized) =
      connectCalls initialized.flow_control :=
  ⟨by decide, (connect_order envSample initialized).2.2.2.2.2.2.2 (by decide)⟩

/-! ### Device identity -/

theorem identity_checked {α : Type} (env : Env) (m : ModemManager) (c : DriverCall)
    (rest : ModemManager → Res α) (x : Str × Str × Str) (h0 : identity m = x)
    (h : ∀ m2, identity m2 = x → identity (rest m2).mgr = x) :
    identity (checked env m c rest).mgr = x := by
  have h1 : identity (driverCall env m c).2 = x := h0
  simp only [checked]
  split_ifs
  · exact h _ h1
  · exact h1

theorem identity_exchange (env : Env) (m : ModemManager) (command : Str) (timeout : Nat) :
    identity (exchange env m command timeout).mgr = identity m := by
  simp only [exchange, send_cmd]
  split_ifs <;> rfl

theorem identity_init (env : Env) (m : ModemManager) :
    identity (init env m).mgr = identity m := by
  unfold init
  apply identity_checked
  · rfl
  · intro m2 h2
    exact h2

theorem identity_onStop (env : Env) (m : ModemManager) :
    identity (onStop env m).mgr = identity m := by
  unfold onStop disconnect
  apply identity_checked _ _ _ _ _ rfl
  intro m2 h2
  cases hd : m2.dce with
  | none => exact h2
  | some d =>
    simp only
    apply identity_checked _ _ _ _ _ h2
    intro m3 h3
    apply identity_checked _ _ _ _ _ h3
    intro m4 h4
    apply identity_checked
    · exact h4
    · intro m5 h5
      exact h5

theorem identity_event (env : Env) (m : ModemManager) (e : ModemEvent) :
    identity (modemEventHandlerStatic env m e).mgr = identity m := by
  cases e with
  | MODEM_EVENT_PPP_START => rfl
  | MODEM_EVENT_PPP_CONNECT => rfl
  | MODEM_EVENT_PPP_DISCONNECT => rfl
  | MODEM_EVENT_PPP_STOP => exact identity_onStop env (publish_status m false true)
  | MODEM_EVENT_UNKNOWN => rfl
  | other id => rfl

theorem identity_formatGuard (env : Env) (m : ModemManager) :
    identity (formatGuard env m).2 = identity m := by
  simp only [formatGuard, setFormatSms_eq]
  split_ifs <;> rfl

theorem identity_textOp (env : Env) (m : ModemManager) (op : TextOp) :
    identity (op.call env m).mgr = identity m := by
  cases hd : m.dce with
  | none => rw [text_call_no_dce env m op hd]; rfl
  | some d =>
    have hg := identity_formatGuard env { m with handle_line := Handler.defaultHandle }
    cases op with
    | sendSms phone text =>
      simp only [TextOp.call, sendSms, hd]
      simp only [hd] at hg
      split_ifs
      · exact hg
      · rw [identity_exchange]
        exact hg
    | listSms =>
      simp only [TextOp.call, listSms, hd]
      simp only [hd] at hg
      split_ifs
      · exact hg
      · rw [identity_exchange]
        exact hg
    | readSms index =>
      simp only [TextOp.call, readSms, hd]
      simp only [hd] at hg
      split_ifs
      · exact hg
      · rw [identity_exchange]
        exact hg

theorem identity_deleteSms (env : Env) (m : ModemManager) (index : Nat) :
    identity (deleteSms env m index).mgr = identity m := by
  unfold deleteSms
  cases hd : m.dce with
  | none => rfl
  | some d => exact identity_exchange env _ _ _

theorem identity_deleteAllSms (env : Env) (m : ModemManager) :
    identity (deleteAllSms env m).mgr = identity m := by
  unfold deleteAllSms
  cases hd : m.dce with
  | none => rfl
  | some d => exact identity_exchange env _ _ _

theorem identity_queryNetRegistrationInfo (env : Env) (m : ModemManager) :
    identity (queryNetRegistrationInfo env m).mgr = identity m := by
  unfold queryNetRegistrationInfo
  cases hd : m.dce with
  | none => rfl
  | some d => exact identity_exchange env _ _ _

/-- A call other than a connect that passes the handshake leaves the identity
as it is. -/
theorem identity_step (env : Env) (m m1 : ModemManager) (op : Op)
    (h : step env m op = some m1) (hn : notHandshake env m op = true) :
    identity m1 = identity m := by
  cases op with
  | setConfig fc =>
    simp only [step, Option.some.injEq] at h
    subst h
    rfl
  | init => have hm := res_match _ _ h; subst hm; exact identity_init env m
  | connect =>
    have hm := res_match _ _ h
    subst hm
    simp only [notHandshake, decide_eq_true_eq] at hn
    rcases connect_cases env m with ⟨_, _, _, hi, _⟩ | ⟨dce, h0, _⟩ | ⟨dce, h0, _⟩ |
      ⟨dce, h0, _⟩ | ⟨dce, h0, _⟩ | ⟨dce, h0, _⟩
    · exact hi
    all_goals (rw [hn] at h0; exact absurd h0 (by simp))
  | stop => have hm := res_match _ _ h; subst hm; exact identity_onStop env m
  | sendSms phone body =>
    have hm := res_match _ _ h; subst hm
    exact identity_textOp env m (TextOp.sendSms phone body)
  | listSms =>
    have hm := res_match _ _ h; subst hm; exact identity_textOp env m TextOp.listSms
  | readSms index =>
    have hm := res_match _ _ h; subst hm; exact identity_textOp env m (TextOp.readSms index)
  | deleteSms index =>
    have hm := res_match _ _ h; subst hm; exact identity_deleteSms env m index
  | deleteAllSms =>
    have hm := res_match _ _ h; subst hm; exact identity_deleteAllSms env m
  | queryNetRegistrationInfo =>
    have hm := res_match _ _ h; subst hm; exact identity_queryNetRegistrationInfo env m
  | event e => have hm := res_match _ _ h; subst hm; exact identity_event env m e

theorem identity_run (env : Env) (ops : List Op) (m m1 : ModemManager)
    (h : run env m ops = some m1) (hn : alongRun notHandshake env m ops = true) :
    identity m1 = identity m := by
  induction ops generalizing m with
  | nil =>
    simp only [run, Option.some.injEq] at h
    subst h
    rfl
  | cons op rest ih =>
    simp only [run] at h
    cases hs : step env m op with
    | none => simp [hs] at h
    | some m2 =>
      simp only [hs] at h
      simp only [alongRun, hs, Bool.and_eq_true] at hn
      rw [ih m2 h hn.2]
      exact identity_step env m m2 op hs hn.1

/-- C12 (counterexample): after init() and a connect() that returned false
because esp_modem_setup_ppp failed, no connect() has returned true, and yet
getImei, getImsi and getCcid return the identity of the device. -/
theorem identity_set_by_failed_connect :
    run envPppFails ModemManager.new [Op.init, Op.connect] = some afterFailedPpp ∧
    alongRun notConnectTrue envPppFails ModemManager.new [Op.init, Op.connect] = true ∧
    (connect envPppFails (init envPppFails ModemManager.new).mgr).val? = some false ∧
    afterFailedPpp.getImei = "860000000000001".toList ∧
    afterFailedPpp.getImsi = "452000000000001".toList ∧
    afterFailedPpp.getCcid = "8400000000000000".toList := by
  decide

/-- C12 (amended): in every state reached from a new manager by calls that
return, in which no connect() call has got a device object from the handshake
n58_init, getImei(), getImsi() and getCcid() all return the empty string. -/
theorem identity_empty_before_handshake (env : Env) (ops : List Op) (m1 : ModemManager)
    (h : run env ModemManager.new ops = some m1)
    (hn : alongRun notHandshake env ModemManager.new ops = true) :
    m1.getImei = [] ∧ m1.getImsi = [] ∧ m1.getCcid = [] := by
  have hi := identity_run env ops ModemManager.new m1 h hn
  simp only [identity, Prod.mk.injEq] at hi
  exact hi

/-- C12, at a concrete input: setConfig, init() and a connect() whose handshake
yields no device object. -/
theorem identity_empty_before_handshake_witness :
    afterNoDevice.getImei = [] ∧ afterNoDevice.getImsi = [] ∧ afterNoDevice.getCcid = [] :=
  identity_empty_before_handshake envNoDevice [Op.setConfig 1, Op.init, Op.connect]
    afterNoDevice (by decide) (by decide)

/-! ### The handlers, line by line -/

/-- C14 (counterexample): an error report that also holds the letters of the
success token is resolved by defaultHandle as Success, not as Failure. -/
theorem defaultHandle_error_line_with_ok :
    strstr errorLineWithOk envSample.MODEM_RESULT_CODE_ERROR = true ∧
    (defaultHandle envSample errorLineWithOk).done = some MODEM_STATE_SUCCESS ∧
    (defaultHandle envSample errorLineWithOk).done ≠ some MODEM_STATE_FAIL := by
  decide

/-- C14 (amended): for every line, defaultHandle resolves the command as
Success if the success token occurs anywhere in the line, resolves it as
Failure if the error token occurs anywhere in the line and the success token
does not, and for any other line resolves nothing and returns `ESP_FAIL`; it
never publishes an event. -/
theorem defaultHandle_resolves (env : Env) (line : Str) :
    (strstr line env.MODEM_RESULT_CODE_SUCCESS = true →
      (defaultHandle env line).done = some MODEM_STATE_SUCCESS ∧
      (defaultHandle env line).err = env.esp_modem_process_command_done MODEM_STATE_SUCCESS) ∧
    (strstr line env.MODEM_RESULT_CODE_SUCCESS = false →
      strstr line env.MODEM_RESULT_CODE_ERROR = true →
      (defaultHandle env line).done = some MODEM_STATE_FAIL ∧
      (defaultHandle env line).err = env.esp_modem_process_command_done MODEM_STATE_FAIL) ∧
    (strstr line env.MODEM_RESULT_CODE_SUCCESS = false →
      strstr line env.MODEM_RESULT_CODE_ERROR = false →
      (defaultHandle env line).done = none ∧ (defaultHandle env line).err = ESP_FAIL) ∧
    (defaultHandle env line).published = [] := by
  unfold defaultHandle
  refine ⟨fun hs => ?_, fun hs he => ?_, fun hs he => ?_, ?_⟩
  · simp [hs]
  · simp [hs, he]
  · simp [hs, he]
  · split_ifs <;> rfl

/-- C14, at concrete inputs: the lines `OK`, `ERROR` and a line of text. -/
theorem defaultHandle_resolves_witness :
    (defaultHandle envSample "OK".toList).done = some MODEM_STATE_SUCCESS ∧
    (defaultHandle envSample "ERROR".toList).done = some MODEM_STATE_FAIL ∧
    (defaultHandle envSample textLine).done = none :=
  ⟨((defaultHandle_resolves envSample "OK".toList).1 (by decide)).1,
   ((defaultHandle_resolves envSample "ERROR".toList).2.1 (by decide) (by decide)).1,
   ((defaultHandle_resolves envSample textLine).2.2.1 (by decide) (by decide)).1⟩

/-- C19: in both handlers the token tests come first, success before error.  A
line in which the success token occurs is resolved as Success by both, also
when the error token occurs in it; and handleCmgs resolves the command and
publishes nothing for every line in which a token occurs, whatever the line
begins with. -/
theorem token_tests_first (env : Env) (line : Str) :
    (strstr line env.MODEM_RESULT_CODE_SUCCESS = true →
      (defaultHandle env line).done = some MODEM_STATE_SUCCESS ∧
      (handleCmgs env line).done = some MODEM_STATE_SUCCESS ∧
      (handleCmgs env line).published = []) ∧
    (strstr line env.MODEM_RESULT_CODE_SUCCESS = false →
      strstr line env.MODEM_RESULT_CODE_ERROR = true →
      (defaultHandle env line).done = some MODEM_STATE_FAIL ∧
      (handleCmgs env line).done = some MODEM_STATE_FAIL ∧
      (handleCmgs env line).published = []) ∧
    ((strstr line env.MODEM_RESULT_CODE_SUCCESS = true ∨
        strstr line env.MODEM_RESULT_CODE_ERROR = true) →
      (handleCmgs env line).done ≠ none ∧ (handleCmgs env line).published = []) := by
  unfold defaultHandle handleCmgs
  refine ⟨fun hs => ?_, fun hs he => ?_, fun h => ?_⟩
  · simp [hs]
  · simp [hs, he]
  · rcases h with h | h
    · simp [h]
    · by_cases hs : strstr line env.MODEM_RESULT_CODE_SUCCESS = true <;> simp [h, hs]

/-- C19, at concrete inputs: an error report and a read-payload line, in both
of which the letters of the success token occur. -/
theorem token_tests_first_witness :
    (defaultHandle envSample errorLineWithOk).done = some MODEM_STATE_SUCCESS ∧
    (handleCmgs envSample errorLineWithOk).done = some MODEM_STATE_SUCCESS ∧
    (handleCmgs envSample cmgrLineWithOk).published = [] :=
  ⟨((token_tests_first envSample errorLineWithOk).1 (by decide)).1,
   ((token_tests_first envSample errorLineWithOk).1 (by decide)).2.1,
   ((token_tests_first envSample cmgrLineWithOk).2.2 (Or.inl (by decide))).2⟩

/-- What handleCmgs does with a line without token that begins with none of
the four response names. -/
theorem handleCmgs_other (env : Env) (line : Str)
    (hs : strstr line env.MODEM_RESULT_CODE_SUCCESS = false)
    (he : strstr line env.MODEM_RESULT_CODE_ERROR = false)
    (h1 : beginsWith line "+CMGS".toList = false) (h2 : beginsWith line "+CMGR".toList = false)
    (h3 : beginsWith line "+CMGL".toList = false)
    (h4 : beginsWith line "+NETMSG".toList = false) :
    handleCmgs env line = { err := ESP_FAIL, done := none, published := [] } := by
  unfold handleCmgs
  simp only [hs, he, h1, h2, h3, h4, Bool.false_eq_true, if_false]

/-- What handleCmgs does with a send acknowledgement without token. -/
theorem handleCmgs_ack (env : Env) (line : Str)
    (hs : strstr line env.MODEM_RESULT_CODE_SUCCESS = false)
    (he : strstr line env.MODEM_RESULT_CODE_ERROR = false)
    (h1 : beginsWith line "+CMGS".toList = true) :
    handleCmgs env line = { err := ESP_OK, done := none, published := [] } := by
  unfold handleCmgs
  simp only [hs, he, h1, Bool.false_eq_true, if_false, if_true]

/-- C20 (counterexample): a line of message text that begins with +CMGL and
follows a list-entry header is published, like the header. -/
theorem text_line_like_header_published :
    strstr textLikeHeader envSample.MODEM_RESULT_CODE_SUCCESS = false ∧
    strstr textLikeHeader envSample.MODEM_RESULT_CODE_ERROR = false ∧
    feed (handleCmgs envSample) [cmglLine, textLikeHeader] =
      { published := [ModemMessage.mk cmglLine, ModemMessage.mk textLikeHeader],
        resolved := [] } := by
  decide

/-- C20 (amended): for every line in which neither the success nor the error
token occurs, handleCmgs does not resolve the command; it returns `ESP_OK`
when the line begins with +CMGS, +CMGR, +CMGL or +NETMSG, publishing nothing
for +CMGS, and otherwise returns `ESP_FAIL` and publishes nothing.  Such a
line is published exactly when it begins with +CMGR, +CMGL or +NETMSG; so of a
+CMGL or +CMGR header followed by a line of message text that begins with
none of these three names, only the header is published. -/
theorem handleCmgs_no_token (env : Env) (line : Str)
    (hs : strstr line env.MODEM_RESULT_CODE_SUCCESS = false)
    (he : strstr line env.MODEM_RESULT_CODE_ERROR = false) :
    (handleCmgs env line).done = none ∧
    ((beginsWith line "+CMGS".toList = true ∨ beginsWith line "+CMGR".toList = true ∨
        beginsWith line "+CMGL".toList = true ∨ beginsWith line "+NETMSG".toList = true) →
      (handleCmgs env line).err = ESP_OK) ∧
    (beginsWith line "+CMGS".toList = true → (handleCmgs env line).published = []) ∧
    (beginsWith line "+CMGS".toList = false → beginsWith line "+CMGR".toList = false →
      beginsWith line "+CMGL".toList = false → beginsWith line "+NETMSG".toList = false →
      (handleCmgs env line).err = ESP_FAIL ∧ (handleCmgs env line).published = []) ∧
    ((handleCmgs env line).published = [] ↔
      (beginsWith line "+CMGR".toList = false ∧ beginsWith line "+CMGL".toList = false ∧
        beginsWith line "+NETMSG".toList = false)) ∧
    (beginsWith line "+CMGR".toList = false → beginsWith line "+CMGL".toList = false →
      beginsWith line "+NETMSG".toList = false →
      ∀ header : Str, strstr header env.MODEM_RESULT_CODE_SUCCESS = false →
        strstr header env.MODEM_RESULT_CODE_ERROR = false →
        (beginsWith header "+CMGL".toList = true ∨ beginsWith header "+CMGR".toList = true) →
        feed (handleCmgs env) [header, line] =
          { published := [ModemMessage.mk header], resolved := [] }) := by
  have hdone : (handleCmgs env line).done = none := by
    unfold handleCmgs
    simp only [hs, he, Bool.false_eq_true, if_false]
    split_ifs <;> rfl
  have hquiet : beginsWith line "+CMGR".toList = false →
      beginsWith line "+CMGL".toList = false → beginsWith line "+NETMSG".toList = false →
      (handleCmgs env line).published = [] := by
    intro h2 h3 h4
    cases h1 : beginsWith line "+CMGS".toList with
    | true => rw [handleCmgs_ack env line hs he h1]
    | false => rw [handleCmgs_other env line hs he h1 h2 h3 h4]
  refine ⟨hdone, ?_, ?_, ?_, ⟨?_, fun h => hquiet h.1 h.2.1 h.2.2⟩, ?_⟩
  · intro hb
    by_cases h1 : beginsWith line "+CMGS".toList = true
    · rw [handleCmgs_ack env line hs he h1]
    · have hb2 : beginsWith line "+CMGR".toList = true ∨
          beginsWith line "+CMGL".toList = true ∨
          beginsWith line "+NETMSG".toList = true := by
        rcases hb with hb | hb
        · exact absurd hb h1
        · exact hb
      rw [handleCmgs_payload env line hs he hb2]
  · intro h1
    rw [handleCmgs_ack env line hs he h1]
  · intro h1 h2 h3 h4
    have ho := handleCmgs_other env line hs he h1 h2 h3 h4
    exact ⟨by rw [ho], by rw [ho]⟩
  · intro hp
    by_contra hcon
    have hb : beginsWith line "+CMGR".toList = true ∨
        beginsWith line "+CMGL".toList = true ∨
        beginsWith line "+NETMSG".toList = true := by
      by_contra hno
      apply hcon
      simp only [not_or, Bool.not_eq_true] at hno
      exact hno
    rw [handleCmgs_payload env line hs he hb] at hp
    simp at hp
  · intro h2 h3 h4 header hhs hhe hhb
    have hh := handleCmgs_payload env header hhs hhe
      (hhb.elim (fun h => Or.inr (Or.inl h)) (fun h => Or.inl h))
    have hp := hquiet h2 h3 h4
    simp [feed, feedFrom, hh, hp, hdone]

/-- C20, at a concrete input: a list-entry header followed by a line of
message text. -/
theorem handleCmgs_no_token_witness :
    (handleCmgs envSample textLine).done = none ∧
    (handleCmgs envSample textLine).err = ESP_FAIL ∧
    feed (handleCmgs envSample) [cmglLine, textLine] =
      { published := [ModemMessage.mk cmglLine], resolved := [] } :=
  ⟨(handleCmgs_no_token envSample textLine (by decide) (by decide)).1,
   ((handleCmgs_no_token envSample textLine (by decide) (by decide)).2.2.2.1
      (by decide) (by decide) (by decide) (by decide)).1,
   (handleCmgs_no_token envSample textLine (by decide) (by decide)).2.2.2.2.2
      (by decide) (by decide) (by decide) cmglLine (by decide) (by decide)
      (Or.inl (by decide))⟩

/-! ### Status publication -/

/-- C16: for both values of `connected` and every `ip_changed`, publish_status
adds exactly one published NetworkStatus and changes nothing else: its kind is
GOT_IP for true and DISCONNECTED for false, and its ip_changed field is the
argument; `Wifi::publish_status` publishes the same event. -/
theorem publish_status_event (m : ModemManager) (ip_changed : Bool)
    (bus : List NetworkStatus) :
    publish_status m true ip_changed =
      { m with log := m.log ++
        [Effect.publish (NetworkStatus.mk NetworkEvent.GOT_IP ip_changed)] } ∧
    publish_status m false ip_changed =
      { m with log := m.log ++
        [Effect.publish (NetworkStatus.mk NetworkEvent.DISCONNECTED ip_changed)] } ∧
    Wifi.publish_status bus true ip_changed =
      bus ++ [NetworkStatus.mk NetworkEvent.GOT_IP ip_changed] ∧
    Wifi.publish_status bus false ip_changed =
      bus ++ [NetworkStatus.mk NetworkEvent.DISCONNECTED ip_changed] ∧
    (∀ connected : Bool,
      statuses (publish_status m connected ip_changed).log =
        Wifi.publish_status (statuses m.log) connected ip_changed) := by
  refine ⟨rfl, rfl, rfl, rfl, ?_⟩
  intro connected
  cases connected <;>
    simp [publish_status, publish, Wifi.publish_status, statuses_append, statuses]

/-! ### Results of the SMS methods -/

theorem exchange_effects (env : Env) (m0 m : ModemManager) (command : Str) (timeout : Nat)
    (h : m.log = m0.log) :
    effectsOf m0 (exchange env m command timeout) =
      [Effect.send_cmd command timeout m.handle_line (env.send_cmd m0.log.length)] := by
  apply effectsOf_eq
  rw [exchange_log, h]

theorem exchange_val_succeeded (env : Env) (m : ModemManager) (command : Str)
    (timeout : Nat) :
    (exchange env m command timeout).val? = some (!(env.send_cmd m.log.length).succeeded) := by
  rw [exchange_val]
  simp [CmdReply.succeeded]

/-- The value a guarded method returns once it is past its guard: the negated
success of the last of its own exchanges, which is made under handleCmgs. -/
theorem text_call_val (env : Env) (m : ModemManager) (d : DceInfo) (op : TextOp)
    (hd : m.dce = some d)
    (hg : (formatGuard env { m with handle_line := Handler.defaultHandle }).1 = true) :
    ∃ pre c t r,
      ownEffects env (formatGuard env { m with handle_line := Handler.defaultHandle }).2 op =
        pre ++ [Effect.send_cmd c t Handler.handleCmgs r] ∧
      (op.call env m).val? = some (!r.succeeded) := by
  simp only [hd] at hg ⊢
  cases op with
  | sendSms phone text =>
    refine ⟨[_], _, _, _, rfl, ?_⟩
    simp [TextOp.call, sendSms, hd, hg, exchange_val_succeeded, send_wait]
  | listSms =>
    refine ⟨[], _, _, _, rfl, ?_⟩
    simp [TextOp.call, listSms, hd, hg, exchange_val_succeeded]
  | readSms index =>
    refine ⟨[], _, _, _, rfl, ?_⟩
    simp [TextOp.call, readSms, hd, hg, exchange_val_succeeded]

/-- How a guarded method ends: with its own last exchange, made under
handleCmgs, whose negated success it returns; or with a failed setup exchange,
made under defaultHandle, after which it returns `ESP_FAIL`. -/
theorem text_call_summary (env : Env) (m : ModemManager) (d : DceInfo) (op : TextOp)
    (hd : m.dce = some d) :
    (∃ pre c t r, effectsOf m (op.call env m) =
        pre ++ [Effect.send_cmd c t Handler.handleCmgs r] ∧
      (op.call env m).val? = some (!r.succeeded)) ∨
    (∃ pre c t r, effectsOf m (op.call env m) =
        pre ++ [Effect.send_cmd c t Handler.defaultHandle r] ∧
      r.succeeded = false ∧ (op.call env m).val? = some (boolOfErr ESP_FAIL)) := by
  have pass : ∀ seg : List Effect,
      (formatGuard env { m with handle_line := Handler.defaultHandle }).1 = true →
      (formatGuard env { m with handle_line := Handler.defaultHandle }).2.log = m.log ++ seg →
      ∃ pre c t r, effectsOf m (op.call env m) =
        pre ++ [Effect.send_cmd c t Handler.handleCmgs r] ∧
        (op.call env m).val? = some (!r.succeeded) := by
    intro seg hg hlog
    obtain ⟨hl, _, _⟩ := text_call_guard_true env m d op hd hg
    obtain ⟨pre, c, t, r, hown, hv⟩ := text_call_val env m d op hd hg
    refine ⟨seg ++ pre, c, t, r, ?_, hv⟩
    apply effectsOf_eq
    rw [hl, hown, hlog]
    simp
  cases hf : m.is_set_format with
  | true =>
    left
    have hg := formatGuard_set env { m with handle_line := Handler.defaultHandle } hf
    exact pass [] (by rw [hg]) (by rw [hg]; simp)
  | false =>
    rcases text_call_unset env m d op hd hf with ⟨h1, hc⟩ | ⟨h1, h2, hc⟩ | ⟨h1, h2, _, _⟩
    · right
      refine ⟨[], CMGF, env.MODEM_COMMAND_TIMEOUT_DEFAULT, env.send_cmd m.log.length,
        ?_, h1, by rw [hc]; rfl⟩
      apply effectsOf_eq
      rw [hc]
      rfl
    · right
      refine ⟨[cmgfExchange env m], CSCS, env.MODEM_COMMAND_TIMEOUT_DEFAULT,
        env.send_cmd (m.log.length + 1), ?_, h2, by rw [hc]; rfl⟩
      apply effectsOf_eq
      rw [hc]
      rfl
    · left
      have hg := formatGuard_ok env { m with handle_line := Handler.defaultHandle } hf h1 h2
      exact pass _ (by rw [hg]) (by rw [hg])

/-- How each of the six methods ends on a manager with a live dce. -/
theorem sms_call_summary (env : Env) (m : ModemManager) (d : DceInfo) (op : SmsOp)
    (hd : m.dce = some d) :
    (∃ pre c t r, effectsOf m (op.call env m) =
        pre ++ [Effect.send_cmd c t Handler.handleCmgs r] ∧
      (op.call env m).val? = some (!r.succeeded)) ∨
    (∃ pre c t r, effectsOf m (op.call env m) =
        pre ++ [Effect.send_cmd c t Handler.defaultHandle r] ∧
      r.succeeded = false ∧ (op.call env m).val? = some (boolOfErr ESP_FAIL)) := by
  cases op with
  | sendSms phone text => exact text_call_summary env m d (TextOp.sendSms phone text) hd
  | listSms => exact text_call_summary env m d TextOp.listSms hd
  | readSms index => exact text_call_summary env m d (TextOp.readSms index) hd
  | deleteSms index =>
    left
    refine ⟨[], (snprintf 9 ("AT+CMGD=".toList ++ fmt_d index ++ [CR])).1,
      MODEM_COMMAND_TIMEOUT_SMS_MS, env.send_cmd m.log.length, ?_, ?_⟩
    · simp only [SmsOp.call, deleteSms, hd]
      exact exchange_effects env m _ _ _ rfl
    · simp only [SmsOp.call, deleteSms, hd]
      rw [exchange_val_succeeded]
  | deleteAllSms =>
    left
    refine ⟨[], "AT+CMGD=1,3\r".toList, MODEM_COMMAND_TIMEOUT_COMMON,
      env.send_cmd m.log.length, ?_, ?_⟩
    · simp only [SmsOp.call, deleteAllSms, hd]
      exact exchange_effects env m _ _ _ rfl
    · simp only [SmsOp.call, deleteAllSms, hd]
      rw [exchange_val_succeeded]
  | queryNetRegistrationInfo =>
    left
    refine ⟨[], "AT+NETMSG\r".toList, MODEM_COMMAND_TIMEOUT_COMMON,
      env.send_cmd m.log.length, ?_, ?_⟩
    · simp only [SmsOp.call, queryNetRegistrationInfo, hd]
      exact exchange_effects env m _ _ _ rfl
    · simp only [SmsOp.call, queryNetRegistrationInfo, hd]
      rw [exchange_val_succeeded]

/-- C18: on a manager with a live dce, each of sendSms, listSms, readSms,
deleteSms, deleteAllSms and queryNetRegistrationInfo returns the conversion to
bool of `ESP_OK` (0, hence false) or of `ESP_FAIL` (-1, hence true).  The
result is false exactly when the call ends with its own command, the
exchange made under handleCmgs, and that exchange succeeded (`send_cmd`
returned `ESP_OK` and left `MODEM_STATE_SUCCESS`); it is true on every other
path.  The test `setFormatSms() == ESP_OK` holds exactly when both setup
exchanges succeeded. -/
theorem sms_result_conversion (env : Env) (m : ModemManager) (d : DceInfo) (op : SmsOp)
    (hd : m.dce = some d) :
    ((op.call env m).val? = some (boolOfErr ESP_OK) ∨
      (op.call env m).val? = some (boolOfErr ESP_FAIL)) ∧
    boolOfErr ESP_OK = false ∧ boolOfErr ESP_FAIL = true ∧
    ((op.call env m).val? = some false ↔
      ∃ c t r, (effectsOf m (op.call env m)).getLast? =
          some (Effect.send_cmd c t Handler.handleCmgs r) ∧ r.succeeded = true) ∧
    ((op.call env m).val? = some true ↔
      ¬ ∃ c t r, (effectsOf m (op.call env m)).getLast? =
          some (Effect.send_cmd c t Handler.handleCmgs r) ∧ r.succeeded = true) ∧
    (∀ m1 : ModemManager, intOfBool (setFormatSms env m1).1 = ESP_OK ↔
      ((env.send_cmd m1.log.length).succeeded = true ∧
        (env.send_cmd (m1.log.length + 1)).succeeded = true)) := by
  have hset : ∀ m1 : ModemManager, intOfBool (setFormatSms env m1).1 = ESP_OK ↔
      ((env.send_cmd m1.log.length).succeeded = true ∧
        (env.send_cmd (m1.log.length + 1)).succeeded = true) := by
    intro m1
    rw [setFormatSms_eq]
    cases h1 : (env.send_cmd m1.log.length).succeeded <;>
      cases h2 : (env.send_cmd (m1.log.length + 1)).succeeded <;>
      simp [intOfBool_true, intOfBool_false]
  rcases sms_call_summary env m d op hd with ⟨pre, c, t, r, he, hv⟩ | ⟨pre, c, t, r, he, hr, hv⟩
  · have hE : (∃ c1 t1 r1, (effectsOf m (op.call env m)).getLast? =
          some (Effect.send_cmd c1 t1 Handler.handleCmgs r1) ∧ r1.succeeded = true) ↔
        r.succeeded = true := by
      rw [he, List.getLast?_concat]
      constructor
      · rintro ⟨c1, t1, r1, h, hs⟩
        have h2 : r = r1 := by
          simp only [Option.some.injEq, Effect.send_cmd.injEq, true_and] at h
          exact h.2.2
        rw [h2]
        exact hs
      · intro h
        exact ⟨c, t, r, rfl, h⟩
    rw [hE, hv]
    refine ⟨?_, boolOfErr_OK, boolOfErr_FAIL, ?_, ?_, hset⟩
    · cases r.succeeded <;> simp [boolOfErr_OK, boolOfErr_FAIL]
    · cases r.succeeded <;> simp
    · cases r.succeeded <;> simp
  · have hE : ¬ ∃ c1 t1 r1, (effectsOf m (op.call env m)).getLast? =
          some (Effect.send_cmd c1 t1 Handler.handleCmgs r1) ∧ r1.succeeded = true := by
      rw [he, List.getLast?_concat]
      rintro ⟨c1, t1, r1, h, _⟩
      simp at h
    rw [hv]
    refine ⟨Or.inr rfl, boolOfErr_OK, boolOfErr_FAIL, ?_, ?_, hset⟩
    · simp [boolOfErr_FAIL, hE]
    · simp [boolOfErr_FAIL, hE]

/-- C18, at a concrete input: a deleteAllSms that succeeds on the connected
manager returns false. -/
theorem sms_result_conversion_witness :
    ((SmsOp.deleteAllSms.call envSample connected).val? = some false ↔
      ∃ c t r, (effectsOf connected (SmsOp.deleteAllSms.call envSample connected)).getLast? =
          some (Effect.send_cmd c t Handler.handleCmgs r) ∧ r.succeeded = true) ∧
    (intOfBool (setFormatSms envSample connected).1 = ESP_OK ↔
      ((envSample.send_cmd connected.log.length).succeeded = true ∧
        (envSample.send_cmd (connected.log.length + 1)).succeeded = true)) :=
  ⟨(sms_result_conversion envSample connected sampleDce SmsOp.deleteAllSms rfl).2.2.2.1,
   (sms_result_conversion envSample connected sampleDce SmsOp.deleteAllSms rfl).2.2.2.2.2
      connected⟩

/-! ### Single exchanges -/

/-- C15 (counterexample): a listSms on the connected manager, whose format
flag is not yet set, makes three exchanges, the first two of them under
defaultHandle. -/
theorem listSms_three_exchanges :
    connected.is_set_format = false ∧
    effectsOf connected (listSms envSample connected) =
      [Effect.send_cmd "AT+CMGF=1\r".toList 500 Handler.defaultHandle
          { ret := ESP_OK, state := MODEM_STATE_SUCCESS },
       Effect.send_cmd "AT+CSCS=\"GSM\"\r".toList 500 Handler.defaultHandle
          { ret := ESP_OK, state := MODEM_STATE_SUCCESS },
       Effect.send_cmd "AT+CMGL=\"ALL\"\r".toList 300 Handler.handleCmgs
          { ret := ESP_OK, state := MODEM_STATE_SUCCESS }] := by
  decide

/-- C15 (amended): on a manager with a live dce, deleteSms and deleteAllSms in
every state, and listSms and readSms once the format flag is set, make
exactly one exchange with the device, a `send_cmd` sent while handleCmgs is
the installed handler. -/
theorem single_exchange (env : Env) (m : ModemManager) (d : DceInfo) (index : Nat)
    (hd : m.dce = some d) :
    effectsOf m (deleteSms env m index) =
      [Effect.send_cmd (snprintf 9 ("AT+CMGD=".toList ++ fmt_d index ++ [CR])).1 5000
        Handler.handleCmgs (env.send_cmd m.log.length)] ∧
    effectsOf m (deleteAllSms env m) =
      [Effect.send_cmd "AT+CMGD=1,3\r".toList 300 Handler.handleCmgs
        (env.send_cmd m.log.length)] ∧
    (m.is_set_format = true →
      effectsOf m (listSms env m) =
        [Effect.send_cmd "AT+CMGL=\"ALL\"\r".toList 300 Handler.handleCmgs
          (env.send_cmd m.log.length)] ∧
      effectsOf m (readSms env m index) =
        [Effect.send_cmd (snprintf 9 ("AT+CMGR=".toList ++ fmt_d index ++ [CR])).1 300
          Handler.handleCmgs (env.send_cmd m.log.length)]) := by
  refine ⟨?_, ?_, fun hf => ?_⟩
  · simp only [deleteSms, hd]
    exact exchange_effects env m _ _ _ rfl
  · simp only [deleteAllSms, hd]
    exact exchange_effects env m _ _ _ rfl
  · have hg := formatGuard_set env { m with handle_line := Handler.defaultHandle } hf
    constructor
    · obtain ⟨hl, _, _⟩ := text_call_guard_true env m d TextOp.listSms hd (by rw [hg])
      rw [hg] at hl
      exact effectsOf_eq m _ _ hl
    · obtain ⟨hl, _, _⟩ := text_call_guard_true env m d (TextOp.readSms index) hd (by rw [hg])
      rw [hg] at hl
      exact effectsOf_eq m _ _ hl

/-- C15, at a concrete input: the four methods on the manager in text mode. -/
theorem single_exchange_witness :
    effectsOf textMode (deleteAllSms envSample textMode) =
      [Effect.send_cmd "AT+CMGD=1,3\r".toList 300 Handler.handleCmgs
        (envSample.send_cmd textMode.log.length)] ∧
    effectsOf textMode (listSms envSample textMode) =
      [Effect.send_cmd "AT+CMGL=\"ALL\"\r".toList 300 Handler.handleCmgs
        (envSample.send_cmd textMode.log.length)] :=
  ⟨(single_exchange envSample textMode sampleDce 1 rfl).2.1,
   ((single_exchange envSample textMode sampleDce 1 rfl).2.2 rfl).1⟩

/-! ### The byte count of the addressing command -/

/-- What `snprintf` leaves for the addressing command: the count it returns is
the length of the whole text, 11 characters more than the phone number, and
the buffer keeps at most 127 characters of it. -/
theorem cmgs_count (phone : Str) :
    (snprintf MODEM_SMS_MAX_LENGTH (cmgsText phone)).2.toNat = (c_str phone).length + 11 ∧
    (snprintf MODEM_SMS_MAX_LENGTH (cmgsText phone)).1.length =
      min 127 ((c_str phone).length + 11) := by
  simp only [snprintf, cmgsText, MODEM_SMS_MAX_LENGTH, List.length_take, List.length_append,
    Int.toNat_ofNat]
  have h1 : "AT+CMGS=\"".toList.length = 9 := by decide
  have h2 : "\"\r".toList.length = 2 := by decide
  rw [h1, h2]
  constructor <;> omega

/-- C21 (the code at the failing input): for a phone number of 120 digits, and
with text mode established, the count sendSms passes to send_wait is 131,
while the buffer of 128 bytes holds a string of 127 characters, cut before
the closing quote and the carriage return.  For every phone number the count
is the length of the whole formatted text, whatever the buffer could keep. -/
theorem sendSms_count_exceeds_buffer :
    (effectsOf textMode (sendSms envSample textMode longPhone "hi".toList)).head? =
      some (Effect.send_wait ("AT+CMGS=\"".toList ++ List.replicate 118 (Char.ofNat 49)) 131
        "\r\n> ".toList 10 ESP_OK) ∧
    ("AT+CMGS=\"".toList ++ List.replicate 118 (Char.ofNat 49)).length = 127 ∧
    commandBufferSize < 131 ∧
    ∀ phone : Str,
      (snprintf MODEM_SMS_MAX_LENGTH (cmgsText phone)).2.toNat = (c_str phone).length + 11 ∧
      (snprintf MODEM_SMS_MAX_LENGTH (cmgsText phone)).1.length =
        min 127 ((c_str phone).length + 11) := by
  refine ⟨rfl, rfl, by decide, cmgs_count⟩

/-! ### The identity after connect -/

/-- C22: when connect gets a device object and passes the flow-control and
profile-store steps, and the CCID of the device has length L of at least 2,
then getCcid() afterwards returns the part of the device CCID that starts at
position 2 and has length min(16, L - 2), so never more than 16 characters,
and getImei() and getImsi() return the IMEI and IMSI of the device as they
are. -/
theorem connect_identity (env : Env) (m : ModemManager) (dce : DceInfo)
    (h0 : env.n58_init m.log.length = some dce)
    (h1 : env.driver (m.log.length + 1) = ESP_OK)
    (h2 : env.driver (m.log.length + 2) = ESP_OK)
    (hL : 2 ≤ dce.ccid.length) :
    (connect env m).mgr.getCcid = (dce.ccid.drop 2).take 16 ∧
    (connect env m).mgr.getCcid.length = min 16 (dce.ccid.length - 2) ∧
    (connect env m).mgr.getCcid.length ≤ 16 ∧
    (∀ i, i < (connect env m).mgr.getCcid.length →
      (connect env m).mgr.getCcid[i]? = dce.ccid[i + 2]?) ∧
    (connect env m).mgr.getImei = dce.imei ∧
    (connect env m).mgr.getImsi = dce.imsi := by
  have hid : identity (connect env m).mgr = identityOf dce := by
    rcases connect_cases env m with ⟨h, _⟩ | ⟨d, h, hn, _⟩ | ⟨d, h, _, hn, _⟩ |
      ⟨d, h, _, _, hl, _⟩ | ⟨d, h, _, _, _, _, _, _, hi⟩ | ⟨d, h, _, _, _, _, _, _, hi, _⟩
    · rw [h0] at h; exact absurd h (by simp)
    · exact absurd h1 hn
    · exact absurd h2 hn
    · rw [h0] at h
      simp only [Option.some.injEq] at h
      subst h
      omega
    · rw [h0] at h
      simp only [Option.some.injEq] at h
      subst h
      exact hi
    · rw [h0] at h
      simp only [Option.some.injEq] at h
      subst h
      exact hi
  simp only [identity, identityOf, Prod.mk.injEq] at hid
  obtain ⟨hi1, hi2, hi3⟩ := hid
  have hlen : (connect env m).mgr.getCcid.length = min 16 (dce.ccid.length - 2) := by
    rw [hi3]
    simp
  refine ⟨hi3, hlen, by rw [hlen]; exact Nat.min_le_left _ _, ?_, hi1, hi2⟩
  intro i hi
  rw [hi3] at hi ⊢
  have h16 : i < 16 := by
    rw [List.length_take] at hi
    omega
  rw [List.getElem?_take, if_pos h16, List.getElem?_drop, Nat.add_comm]

/-- C22, at a concrete input: init and connect on the sample device, whose
CCID has 20 characters. -/
theorem connect_identity_witness :
    connected.getCcid = "8400000000000000".toList ∧
    connected.getImei = "860000000000001".toList ∧
    connected.getImsi = "452000000000001".toList := by
  have h := connect_identity envSample initialized sampleDce rfl rfl rfl (by decide)
  exact ⟨h.1, h.2.2.2.2.1, h.2.2.2.2.2⟩

end Smooth
